import Mathlib

/-!
Shallow embedding of the `plugin-proofmode` TypeScript sources
(`src/parse/signals.ts`, `src/parse/csv.ts`, `src/parse/json.ts`,
`src/parse/bundle.ts`, `src/create.ts`, `src/verify.ts`, `src/evaluate.ts`)
together with theorems settling the frozen claims about them.

Modelling conventions:
* JavaScript numbers are modelled exactly by `JSNum`: `nan`, the two
  infinities, and finite values as rationals (float rounding is out of
  scope, but NaN/Infinity propagation of every arithmetic operator,
  comparison, `Math.min`/`Math.max`/`Math.floor`/`Math.round`/`Math.abs`
  follows the ECMAScript semantics).
* Host-provided builtins that are external to the repository code
  (`parseFloat`, `JSON.parse`, `new Date(...).getTime()`, `Date.now()`,
  `TextDecoder.decode`, `Buffer.from(_, 'base64url')`, number→string
  conversion, and the `Math` trigonometry used by the haversine formula)
  are passed in as a `JSEnv` record of abstract functions.
* TypeScript casts (`signals['…'] as number | undefined`, `?? 0`) do no
  runtime filtering, so reads whose result feeds a truthiness test, an
  arithmetic operator or a comparison are modelled on the raw stored
  values, with the ECMAScript coercions those operators perform
  (`jsToNumber`, `jsAdd`, `jsValToString`); in particular the strings
  that `extractSignals` stores at numeric fields on a failed
  `parseFloat` flow through truthy, and the temporal footprint built by
  `createStampFromBundle` may therefore hold such a string verbatim.
  Typed accessors remain only where the source's own strict checks
  (`typeof`, `===`) make other value shapes observably equivalent.
* Fields that the TypeScript interfaces declare as required
  (`temporalFootprint`, `signals` of a `LocationStamp`) are required
  fields of the Lean structures, so the defensive `!stamp.signals`-style
  presence checks of `verify.ts` are satisfied by typing.
-/

namespace ProofMode

/-- A JavaScript number: NaN, +Infinity, -Infinity or a finite value. -/
inductive JSNum where
  | nan : JSNum
  | posInf : JSNum
  | negInf : JSNum
  | val : ℚ → JSNum
deriving DecidableEq, Repr

namespace JSNum

/-- JavaScript unary minus. -/
def jneg : JSNum → JSNum
  | nan => nan
  | posInf => negInf
  | negInf => posInf
  | val x => val (-x)

/-- JavaScript addition. -/
def jadd : JSNum → JSNum → JSNum
  | nan, _ => nan
  | _, nan => nan
  | posInf, negInf => nan
  | negInf, posInf => nan
  | posInf, _ => posInf
  | _, posInf => posInf
  | negInf, _ => negInf
  | _, negInf => negInf
  | val x, val y => val (x + y)

/-- JavaScript subtraction. -/
def jsub (a b : JSNum) : JSNum := jadd a (jneg b)

/-- JavaScript multiplication. -/
def jmul : JSNum → JSNum → JSNum
  | nan, _ => nan
  | _, nan => nan
  | posInf, posInf => posInf
  | posInf, negInf => negInf
  | negInf, posInf => negInf
  | negInf, negInf => posInf
  | posInf, val y => if y = 0 then nan else if 0 < y then posInf else negInf
  | val x, posInf => if x = 0 then nan else if 0 < x then posInf else negInf
  | negInf, val y => if y = 0 then nan else if 0 < y then negInf else posInf
  | val x, negInf => if x = 0 then nan else if 0 < x then negInf else posInf
  | val x, val y => val (x * y)

/-- JavaScript division (`0/0 = NaN`, `x/0 = ±Infinity` for `x ≠ 0`). -/
def jdiv : JSNum → JSNum → JSNum
  | nan, _ => nan
  | _, nan => nan
  | posInf, posInf => nan
  | posInf, negInf => nan
  | negInf, posInf => nan
  | negInf, negInf => nan
  | posInf, val y => if 0 ≤ y then posInf else negInf
  | negInf, val y => if 0 ≤ y then negInf else posInf
  | val _, posInf => val 0
  | val _, negInf => val 0
  | val x, val y =>
    if y = 0 then (if x = 0 then nan else if 0 < x then posInf else negInf)
    else val (x / y)

/-- JavaScript `Math.abs`. -/
def jabs : JSNum → JSNum
  | nan => nan
  | posInf => posInf
  | negInf => posInf
  | val x => val |x|

/-- JavaScript `Math.floor`. -/
def jfloor : JSNum → JSNum
  | nan => nan
  | posInf => posInf
  | negInf => negInf
  | val x => val (⌊x⌋ : ℤ)

/-- JavaScript `Math.round` (round half towards +Infinity). -/
def jround : JSNum → JSNum
  | nan => nan
  | posInf => posInf
  | negInf => negInf
  | val x => val (⌊x + 1/2⌋ : ℤ)

/-- JavaScript `Math.max` of two arguments (NaN-propagating). -/
def jmax : JSNum → JSNum → JSNum
  | nan, _ => nan
  | _, nan => nan
  | posInf, _ => posInf
  | _, posInf => posInf
  | negInf, b => b
  | a, negInf => a
  | val x, val y => val (max x y)

/-- JavaScript `Math.min` of two arguments (NaN-propagating). -/
def jmin : JSNum → JSNum → JSNum
  | nan, _ => nan
  | _, nan => nan
  | negInf, _ => negInf
  | _, negInf => negInf
  | posInf, b => b
  | a, posInf => a
  | val x, val y => val (min x y)

/-- JavaScript `<=` on numbers (false whenever an operand is NaN). -/
def jleB : JSNum → JSNum → Bool
  | nan, _ => false
  | _, nan => false
  | negInf, _ => true
  | _, posInf => true
  | posInf, _ => false
  | val _, negInf => false
  | val x, val y => decide (x ≤ y)

/-- JavaScript `<` on numbers (false whenever an operand is NaN). -/
def jltB : JSNum → JSNum → Bool
  | nan, _ => false
  | _, nan => false
  | posInf, _ => false
  | _, posInf => true
  | negInf, negInf => false
  | negInf, _ => true
  | val _, negInf => false
  | val x, val y => decide (x < y)

/-- JavaScript truthiness of a number (`0` and `NaN` are falsy). -/
def jtruthyB : JSNum → Bool
  | nan => false
  | posInf => true
  | negInf => true
  | val x => decide (x ≠ 0)

/-- `Number.isFinite`. -/
def isFinite : JSNum → Bool
  | val _ => true
  | _ => false

end JSNum

open JSNum

/-- A value stored in a signal map: the normalizer and the stamp builder
store finite-or-not numbers, strings and booleans (`ProofModeSignals`
values in `types.ts`). -/
inductive SigVal where
  | num : JSNum → SigVal
  | str : String → SigVal
  | bool : Bool → SigVal
deriving DecidableEq, Repr

/-- A JavaScript string-keyed object holding signal values, viewed through
key lookup (`signals[k]`). -/
abbrev SignalMap : Type := String → Option SigVal

/-- The empty object `{}`. -/
def emptySignals : SignalMap := fun _ => none

/-- JavaScript property assignment `m[k] = v` viewed through lookup. -/
def setSig (m : SignalMap) (k : String) (v : SigVal) : SignalMap :=
  fun k' => if k' = k then some v else m k'

/-- Reads `m[k] as number | undefined` following the declared TypeScript
type: a stored non-number is outside that type and reads as `undefined`. -/
def sigNumOpt (m : SignalMap) (k : String) : Option JSNum :=
  match m k with
  | some (.num j) => some j
  | _ => none

/-- Reads `m[k] as string | undefined` (cf. `sigNumOpt`). -/
def sigStrOpt (m : SignalMap) (k : String) : Option String :=
  match m k with
  | some (.str s) => some s
  | _ => none

/-- JavaScript truthiness of a signal value (`0`, `NaN`, the empty
string and `false` are falsy). -/
def sigTruthyB : SigVal → Bool
  | SigVal.num j => jtruthyB j
  | SigVal.str s => decide (s ≠ "")
  | SigVal.bool b => b

/-- Keeps an optional raw value only when it is JavaScript-truthy
(models `if (x) { … }` on a possibly-absent property read). -/
def truthySig (o : Option SigVal) : Option SigVal :=
  match o with
  | some v => if sigTruthyB v then some v else none
  | none => none

/-- Keeps an optional number only when it is JavaScript-truthy
(models `if (x) { … }` on a `number | undefined`). -/
def truthyNum (o : Option JSNum) : Option JSNum :=
  match o with
  | some j => if jtruthyB j then some j else none
  | none => none

/-- Keeps an optional string only when it is JavaScript-truthy
(nonempty; models `if (s) { … }` on a `string | undefined`). -/
def truthyStr (o : Option String) : Option String :=
  match o with
  | some s => if s = "" then none else some s
  | none => none

/-- A parsed JSON document (output of the host `JSON.parse`). -/
inductive Json where
  | jnull : Json
  | jbool : Bool → Json
  | jnum : ℚ → Json
  | jstr : String → Json
  | jarr : List Json → Json
  | jobj : List (String × Json) → Json

/-- JavaScript truthiness of a JSON value (models `!!payload.field`). -/
def jsonTruthy : Json → Bool
  | .jnull => false
  | .jbool b => b
  | .jnum q => decide (q ≠ 0)
  | .jstr s => decide (s ≠ "")
  | .jarr _ => true
  | .jobj _ => true

/-- JavaScript property read `payload.field` on a parsed JSON document
(`undefined`, i.e. `none`, when absent or not an object). -/
def jsonGet (j : Json) (k : String) : Option Json :=
  match j with
  | .jobj fields => fields.lookup k
  | _ => none

/-- A diagnostic value stored in a `details` map. -/
inductive DVal where
  | num : JSNum → DVal
  | str : String → DVal
  | bool : Bool → DVal
  | strList : List String → DVal
  | snObj : Bool → Bool → Option Json → DVal

/-- A `details` diagnostic object, viewed through key lookup. -/
abbrev DetailsMap : Type := String → Option DVal

/-- The empty `details` object. -/
def emptyDetails : DetailsMap := fun _ => none

/-- A raw signal value stored in a `details` map. -/
def dvalOfSig : SigVal → DVal
  | SigVal.num j => DVal.num j
  | SigVal.str s => DVal.str s
  | SigVal.bool b => DVal.bool b

/-- JavaScript property assignment `details.k = v` viewed through lookup. -/
def setD (m : DetailsMap) (k : String) (v : DVal) : DetailsMap :=
  fun k' => if k' = k then some v else m k'

/-- The host-provided JavaScript builtins used by the repository code;
they are external to the sources under verification and are therefore
parameters of the embedding. -/
structure JSEnv where
  /-- `parseFloat` (returns NaN on failure, may return Infinity). -/
  parseFloat : String → JSNum
  /-- Number-to-string conversion `String(x)` for finite numbers. -/
  numToString : ℚ → String
  /-- The ECMAScript `ToNumber` conversion on strings (used by the
  arithmetic and relational operators when a string operand is
  coerced). -/
  toNumber : String → JSNum
  /-- `new Date(s).getTime()` in milliseconds (NaN when unparsable). -/
  dateParseMs : String → JSNum
  /-- `Date.now()` in milliseconds. -/
  nowMs : JSNum
  /-- `JSON.parse` (throws, i.e. `none`, on malformed text). -/
  jsonParse : String → Option Json
  /-- `TextDecoder.decode` over a byte buffer. -/
  decode : List Nat → String
  /-- `Buffer.from(s, 'base64url').toString('utf-8')` (lenient). -/
  base64urlDecode : String → String
  /-- `Math.PI`. -/
  pi : JSNum
  /-- `Math.sin`. -/
  sin : JSNum → JSNum
  /-- `Math.cos`. -/
  cos : JSNum → JSNum
  /-- `Math.asin`. -/
  asin : JSNum → JSNum
  /-- `Math.sqrt`. -/
  sqrt : JSNum → JSNum

/-! ### JavaScript coercion semantics on raw values

`extractSignals` stores the original string at a numeric field when
`parseFloat` fails, and the TypeScript casts (`as number`, `?? 0`) do no
runtime filtering, so such strings flow truthy into arithmetic and
relational operators. These helpers give the ECMAScript coercions those
operators perform. -/

/-- `ToString` on a number (`String(x)`). -/
def jsNumToString (env : JSEnv) : JSNum → String
  | JSNum.nan => "NaN"
  | JSNum.posInf => "Infinity"
  | JSNum.negInf => "-Infinity"
  | JSNum.val q => env.numToString q

/-- `ToString` on a raw value. -/
def jsValToString (env : JSEnv) : SigVal → String
  | SigVal.str s => s
  | SigVal.num j => jsNumToString env j
  | SigVal.bool true => "true"
  | SigVal.bool false => "false"

/-- `ToNumber` on a raw value (numbers pass through, strings convert
via the host conversion, booleans become 0 or 1). -/
def jsToNumber (env : JSEnv) : SigVal → JSNum
  | SigVal.num j => j
  | SigVal.str s => env.toNumber s
  | SigVal.bool true => JSNum.val 1
  | SigVal.bool false => JSNum.val 0

/-- The JavaScript `+` operator on raw values: concatenation when
either operand is a string, numeric addition otherwise. -/
def jsAdd (env : JSEnv) : SigVal → SigVal → SigVal
  | SigVal.str a, b => SigVal.str (a ++ jsValToString env b)
  | a, SigVal.str b => SigVal.str (jsValToString env a ++ b)
  | a, b => SigVal.num (jadd (jsToNumber env a) (jsToNumber env b))

/-! ### String and byte helpers (JavaScript string builtins) -/

/-- JavaScript `String.prototype.trim` (drop leading and trailing
whitespace). -/
def jsTrim (s : String) : String :=
  String.mk (((s.toList.dropWhile Char.isWhitespace).reverse.dropWhile
    Char.isWhitespace).reverse)

/-- First index at which `pat` occurs as a substring (character lists). -/
def findSubIdx (pat : List Char) : List Char → Option Nat
  | [] => if pat.isPrefixOf ([] : List Char) then some 0 else none
  | c :: t =>
    if pat.isPrefixOf (c :: t) then some 0
    else (findSubIdx pat t).map (· + 1)

/-- JavaScript `s.includes(pat)`. -/
def containsSub (s pat : String) : Bool :=
  (findSubIdx pat.toList s.toList).isSome

/-- JavaScript `s.replace(pat, rep)` replacing only the first occurrence
of a plain-string pattern. -/
def replaceFirst (s pat rep : String) : String :=
  match findSubIdx pat.toList s.toList with
  | none => s
  | some i =>
    String.mk (s.toList.take i ++ rep.toList ++ s.toList.drop (i + pat.length))

/-- JavaScript object assignment `raw[k] = v` on an insertion-ordered
association list: an existing key keeps its position and is overwritten,
a new key is appended. -/
def setEntry : List (String × String) → String → String →
    List (String × String)
  | [], k, v => [(k, v)]
  | (k', v') :: rest, k, v =>
    if k' = k then (k', v) :: rest else (k', v') :: setEntry rest k v

/-- The base64 alphabet used by `btoa`. -/
def base64Alphabet : List Char :=
  "ABCDEFGHIJKLMNOPQRSTUVWXYZabcdefghijklmnopqrstuvwxyz0123456789+/".toList

/-- One base64 digit. -/
def b64Char (n : Nat) : Char := base64Alphabet.getD n 'A'

/-- `btoa(binary)` where `binary` is the byte buffer rendered through
`String.fromCharCode` byte by byte, as done in `create.ts`. -/
def base64Encode : List Nat → String
  | [] => ""
  | [a] =>
    String.mk [b64Char (a / 4), b64Char (a % 4 * 16), '=', '=']
  | [a, b] =>
    String.mk [b64Char (a / 4), b64Char (a % 4 * 16 + b / 16),
      b64Char (b % 16 * 4), '=']
  | a :: b :: c :: rest =>
    String.mk [b64Char (a / 4), b64Char (a % 4 * 16 + b / 16),
      b64Char (b % 16 * 4 + c / 64), b64Char (c % 64)] ++ base64Encode rest

/-! ### Data model (`types.ts` and the SDK stamp/claim shapes) -/

/-- The metadata format tag. -/
inductive MetaFormat where
  | csv : MetaFormat
  | json : MetaFormat
deriving DecidableEq, Repr

/-- Parsed ProofMode metadata (`ProofModeMetadata` in `types.ts`). -/
structure ProofModeMetadata where
  signals : SignalMap
  format : MetaFormat
  fileHash : Option String

/-- Parsed ProofMode proof bundle (`ParsedBundle` in `types.ts`). -/
structure ParsedBundle where
  metadata : ProofModeMetadata
  publicKey : Option String
  metadataSignature : Option (List Nat)
  mediaSignature : Option (List Nat)
  safetyNetToken : Option String
  deviceCheckAttestation : Option String
  otsProof : Option (List Nat)
  mediaFile : Option (List Nat)
  mediaFileName : Option String
  expectedHash : Option String
  files : List (String × List Nat)

/-- A GeoJSON-style location object carrying a coordinate array. -/
structure Location where
  type : String
  coordinates : List JSNum

/-- The temporal footprint; the source field `end` is a Lean keyword and
is embedded as `stop`. The fields are raw values because the builder
assigns `startTime` verbatim, which can be a truthy string stored at
`Location.Time` by the normalizer. -/
structure TemporalFootprint where
  start : SigVal
  stop : SigVal
deriving DecidableEq, Repr

/-- A signer identity attached to a stamp signature. -/
structure Signer where
  value : String

/-- A stamp signature entry; `value` is `unknown` in the SDK type, so it
is a `SigVal` here (the code checks `typeof sig.value === 'string'`). -/
structure StampSignature where
  algorithm : String
  value : SigVal
  signer : Option Signer

/-- A (possibly signed) location stamp. `temporalFootprint` and `signals`
are required fields of the SDK `LocationStamp` type. -/
structure Stamp where
  lpVersion : String
  locationType : String
  location : Option Location
  srs : String
  temporalFootprint : TemporalFootprint
  plugin : String
  pluginVersion : String
  signals : SignalMap
  signatures : List StampSignature

/-- A location claim supplied by the caller. -/
structure LocationClaim where
  location : Option Location
  radius : JSNum
  time : TemporalFootprint

/-- The credibility vector produced by the evaluator. -/
structure CredibilityVector where
  supportsClaim : Bool
  score : JSNum
  spatial : JSNum
  temporal : JSNum
  details : DetailsMap

/-- The verification result produced by the verifier. -/
structure StampVerificationResult where
  valid : Bool
  structureValid : Bool
  signaturesValid : Bool
  signalsConsistent : Bool
  details : DetailsMap

/-- Errors thrown by the parsing pipeline. -/
inductive ParseError where
  | missingMetadata : ParseError
  | jsonDecode : ParseError
deriving DecidableEq, Repr

/-! ### Signal normalizer (`src/parse/signals.ts`) -/

/-- `NUMERIC_FIELDS`: canonical fields parsed as numbers. -/
def NUMERIC_FIELDS : List String :=
  ["Location.Latitude", "Location.Longitude", "Location.Accuracy",
   "Location.Altitude", "Location.Bearing", "Location.Speed",
   "Location.Time", "File.Size", "Timestamp"]

/-- `ALIASES`: the static alias table mapping lower-cased variant
spellings to canonical field names. -/
def ALIASES : List (String × String) :=
  [("location.latitude", "Location.Latitude"),
   ("location.longitude", "Location.Longitude"),
   ("location.provider", "Location.Provider"),
   ("location.accuracy", "Location.Accuracy"),
   ("location.altitude", "Location.Altitude"),
   ("location.bearing", "Location.Bearing"),
   ("location.speed", "Location.Speed"),
   ("location.time", "Location.Time"),
   ("latitude", "Location.Latitude"),
   ("longitude", "Location.Longitude"),
   ("accuracy", "Location.Accuracy"),
   ("altitude", "Location.Altitude"),
   ("bearing", "Location.Bearing"),
   ("speed", "Location.Speed"),
   ("provider", "Location.Provider"),
   ("cellinfo", "CellInfo"),
   ("wifi.mac", "WiFi.MAC"),
   ("wifi mac", "WiFi.MAC"),
   ("wifimac", "WiFi.MAC"),
   ("ipv4", "IPv4"),
   ("ipv6", "IPv6"),
   ("network", "Network"),
   ("deviceid", "DeviceID"),
   ("deviceid vendor", "DeviceID.Vendor"),
   ("deviceid.vendor", "DeviceID.Vendor"),
   ("hardware", "Hardware"),
   ("manufacturer", "Manufacturer"),
   ("model", "Model"),
   ("proofhash", "ProofHash"),
   ("filehash", "FileHash"),
   ("file.hash", "FileHash"),
   ("file hash sha256", "FileHash"),
   ("mimetype", "MimeType"),
   ("file.name", "File.Name"),
   ("filename", "File.Name"),
   ("file path", "File.Path"),
   ("file.path", "File.Path"),
   ("file.size", "File.Size"),
   ("filesize", "File.Size"),
   ("file modified", "File.Modified"),
   ("file.modified", "File.Modified"),
   ("datecreated", "DateCreated"),
   ("timestamp", "Timestamp"),
   ("proof generated", "ProofGenerated"),
   ("proofgenerated", "ProofGenerated"),
   ("currentdatetime0gmt", "Timestamp"),
   ("sha256", "FileHash"),
   ("file", "File.Name"),
   ("modified", "File.Modified"),
   ("language", "Language"),
   ("locale", "Locale"),
   ("datatype", "DataType"),
   ("networktype", "Network"),
   ("screensize", "ScreenSize")]

/-- `ALIASES[rawKey.toLowerCase()] || rawKey`: alias resolution of one
raw key. -/
def canonicalKey (rawKey : String) : String :=
  (ALIASES.lookup rawKey.toLower).getD rawKey

/-- The body of the `extractSignals` loop for one raw key/value pair:
normalize the key, trim the value, drop empty values, and coerce
known-numeric fields through `parseFloat` (keeping the string on a NaN
parse). -/
def extractStep (env : JSEnv) (signals : SignalMap) (p : String × String) :
    SignalMap :=
  let canonical := canonicalKey p.1
  let value := jsTrim p.2
  if value = "" then signals
  else if NUMERIC_FIELDS.contains canonical then
    match env.parseFloat value with
    | JSNum.nan => setSig signals canonical (SigVal.str value)
    | j => setSig signals canonical (SigVal.num j)
  else setSig signals canonical (SigVal.str value)

/-- `extractSignals` over the raw key/value pairs in iteration order
(`Object.entries`). -/
def extractSignals (env : JSEnv) (raw : List (String × String)) : SignalMap :=
  raw.foldl (extractStep env) emptySignals

/-! ### CSV metadata decoder (`src/parse/csv.ts`) -/

/-- `splitCSVLine`: split on commas, drop a trailing empty field, trim
every field. -/
def splitCSVLine (line : String) : List String :=
  let parts := line.splitOn ","
  let parts :=
    match parts.getLast? with
    | some lastPart => if jsTrim lastPart = "" then parts.dropLast else parts
    | none => parts
  parts.map jsTrim

/-- The non-empty, non-comment lines of the CSV text. -/
def csvNonEmpty (lines : List String) : List String :=
  (lines.map jsTrim).filter (fun l => l ≠ "" && !l.startsWith "#")

/-- `isHorizontalFormat`: header+data layout detection heuristic. -/
def isHorizontalFormat (lines : List String) : Bool :=
  let nonEmpty := csvNonEmpty lines
  if nonEmpty.length < 2 then false
  else
    let headerCount := (splitCSVLine (nonEmpty.getD 0 "")).length
    let dataCount := (splitCSVLine (nonEmpty.getD 1 "")).length
    headerCount > 2 && dataCount > 2

/-- `parseHorizontal`: zip each data row with the header row. -/
def parseHorizontal (lines : List String) : List (String × String) :=
  let nonEmpty := csvNonEmpty lines
  if nonEmpty.length < 2 then []
  else
    let headers := splitCSVLine (nonEmpty.getD 0 "")
    (nonEmpty.drop 1).foldl
      (fun raw row =>
        let values := splitCSVLine row
        (List.range headers.length).foldl
          (fun raw i =>
            let key := headers.getD i ""
            let value := values.getD i ""
            if key ≠ "" && value ≠ "" then setEntry raw key value else raw)
          raw)
      []

/-- `parseVertical`: one key/value pair per line, separator auto-detected
as the first comma, tab or colon at a positive index. -/
def parseVertical (lines : List String) : List (String × String) :=
  lines.foldl
    (fun raw line =>
      let trimmed := jsTrim line
      if trimmed = "" || trimmed.startsWith "#" then raw
      else
        let chars := trimmed.toList
        let split : Option (String × String) :=
          match chars.findIdx? (· = ',') with
          | some i =>
            if 0 < i then
              some (jsTrim (String.mk (chars.take i)),
                jsTrim (String.mk (chars.drop (i + 1))))
            else none
          | none => none
        let split :=
          match split with
          | some kv => some kv
          | none =>
            match chars.findIdx? (· = '\t') with
            | some i =>
              if 0 < i then
                some (jsTrim (String.mk (chars.take i)),
                  jsTrim (String.mk (chars.drop (i + 1))))
              else none
            | none => none
        let split :=
          match split with
          | some kv => some kv
          | none =>
            match chars.findIdx? (· = ':') with
            | some i =>
              if 0 < i then
                some (jsTrim (String.mk (chars.take i)),
                  jsTrim (String.mk (chars.drop (i + 1))))
              else none
            | none => none
        match split with
        | none => raw
        | some (key, value0) =>
          let value :=
            if value0.startsWith "\"" && value0.endsWith "\"" then
              String.mk (value0.toList.drop 1).dropLast
            else value0
          if key.toLower = "key" && value.toLower = "value" then raw
          else setEntry raw key value)
    []

/-- The best-effort file hash read from the raw map
(`raw['FileHash'] || raw['File.Hash']`, `||` on possibly-empty strings). -/
def rawFileHash (raw : List (String × String)) : Option String :=
  match truthyStr (raw.lookup "FileHash") with
  | some h => some h
  | none => raw.lookup "File.Hash"

/-- `parseCSV`: layout detection plus signal extraction. -/
def parseCSV (env : JSEnv) (csvText : String) : ProofModeMetadata :=
  let lines := (jsTrim csvText).splitOn "\n"
  let raw := if isHorizontalFormat lines then parseHorizontal lines
             else parseVertical lines
  { signals := extractSignals env raw
    format := MetaFormat.csv
    fileHash := rawFileHash raw }

/-! ### JSON metadata decoder (`src/parse/json.ts`) -/

mutual

/-- JavaScript `String(value)` over a parsed JSON value (arrays join
their stringified elements with commas; null renders as the empty
string inside arrays). -/
def jsonToString (env : JSEnv) : Json → String
  | .jnull => "null"
  | .jbool true => "true"
  | .jbool false => "false"
  | .jnum q => env.numToString q
  | .jstr s => s
  | .jarr xs => String.intercalate "," (jsonArrParts env xs)
  | .jobj _ => "[object Object]"

/-- Stringified elements of a JSON array (see `jsonToString`). -/
def jsonArrParts (env : JSEnv) : List Json → List String
  | [] => []
  | Json.jnull :: rest => "" :: jsonArrParts env rest
  | y :: rest => jsonToString env y :: jsonArrParts env rest

end

/-- `flattenObject`: flatten nested objects into dot-joined keys; arrays
and scalars are stringified as leaves. -/
def flattenObject (env : JSEnv) :
    List (String × Json) → String → List (String × String) →
    List (String × String)
  | [], _, result => result
  | (key, value) :: rest, pre, result =>
    let fullKey := if pre = "" then key else pre ++ "." ++ key
    match value with
    | .jobj fields =>
      flattenObject env rest pre (flattenObject env fields fullKey result)
    | v =>
      flattenObject env rest pre
        (setEntry result fullKey (jsonToString env v))

/-- `parseJSON`: parse a document, flatten an object (or an array, whose
entries are its indices), and extract signals; malformed JSON propagates
as a `JSONDecodeError`. -/
def parseJSON (env : JSEnv) (jsonText : String) :
    Except ParseError ProofModeMetadata :=
  match env.jsonParse jsonText with
  | none => Except.error ParseError.jsonDecode
  | some parsed =>
    let raw :=
      match parsed with
      | .jobj fields => flattenObject env fields "" []
      | .jarr xs =>
        flattenObject env (xs.enum.map (fun p => (toString p.1, p.2))) "" []
      | _ => []
    Except.ok
      { signals := extractSignals env raw
        format := MetaFormat.json
        fileHash := rawFileHash raw }

/-! ### Bundle classifier (`src/parse/bundle.ts`) -/

/-- `MEDIA_EXTENSIONS`: known media file extensions. -/
def MEDIA_EXTENSIONS : List String :=
  [".jpg", ".jpeg", ".png", ".gif", ".bmp", ".webp", ".heic", ".heif",
   ".mp4", ".mov", ".avi", ".mkv", ".webm", ".3gp",
   ".mp3", ".wav", ".aac", ".ogg", ".m4a"]

/-- The substring from the last `'.'` of a name (inclusive), if any
(JavaScript `name.substring(name.lastIndexOf('.'))`). -/
def extFromLastDot (name : String) : Option String :=
  let chars := name.toList
  if chars.contains '.' then
    some (String.mk ('.' :: (chars.reverse.takeWhile (· ≠ '.')).reverse))
  else none

/-- `isMediaFile`: last-extension membership test. -/
def isMediaFile (name : String) : Bool :=
  match extFromLastDot name with
  | none => false
  | some ext => MEDIA_EXTENSIONS.contains ext.toLower

/-- The mutable slots filled by the classification loop of
`parseBundle`. -/
structure BundleSlots where
  files : List (String × List Nat)
  csvData : Option (List Nat)
  jsonData : Option (List Nat)
  publicKey : Option String
  metadataSignature : Option (List Nat)
  mediaSignature : Option (List Nat)
  safetyNetToken : Option String
  deviceCheckAttestation : Option String
  otsProof : Option (List Nat)
  mediaFile : Option (List Nat)
  mediaFileName : Option String

/-- The initial (empty) classification state. -/
def initSlots : BundleSlots :=
  { files := [], csvData := none, jsonData := none, publicKey := none,
    metadataSignature := none, mediaSignature := none,
    safetyNetToken := none, deviceCheckAttestation := none,
    otsProof := none, mediaFile := none, mediaFileName := none }

/-- `baseName`: `lower.split('/').pop() ?? lower`. -/
def baseNameOf (lower : String) : String :=
  match (lower.splitOn "/").getLast? with
  | some b => b
  | none => lower

/-- One iteration of the classification loop of `parseBundle`: the
fixed-priority filename-pattern chain. -/
def classifyEntry (env : JSEnv) (s : BundleSlots)
    (entry : String × List Nat) : BundleSlots :=
  let name := entry.1
  let data := entry.2
  let s := { s with files := s.files ++ [(name, data)] }
  let lower := name.toLower
  let baseName := baseNameOf lower
  if lower.endsWith ".proof.csv" then { s with csvData := some data }
  else if lower.endsWith ".proof.json" then { s with jsonData := some data }
  else if baseName = "pubkey.asc" then
    { s with publicKey := some (env.decode data) }
  else if lower.endsWith ".proof.csv.asc" then
    { s with metadataSignature := some data }
  else if lower.endsWith ".proof.json.asc" then
    match s.metadataSignature with
    | none => { s with metadataSignature := some data }
    | some _ => s
  else if lower.endsWith ".gst" then
    { s with safetyNetToken := some (env.decode data) }
  else if lower.endsWith ".devicecheck" then
    { s with deviceCheckAttestation := some (env.decode data) }
  else if lower.endsWith ".ots" then { s with otsProof := some data }
  else if lower.endsWith ".txt" then s
  else if lower.endsWith ".asc" && !containsSub lower "proof" &&
      baseName ≠ "pubkey.asc" then
    { s with mediaSignature := some data }
  else if isMediaFile name then
    { s with mediaFile := some data, mediaFileName := some name }
  else s

/-- The opportunistic content-hash extraction from a metadata-csv
filename (`^[a-f0-9]{64}$` case-insensitively, after stripping the first
occurrence of `.proof.csv` from the basename). -/
def extractExpectedHash (slots : BundleSlots) : Option String :=
  match slots.csvData with
  | none => none
  | some _ =>
    match slots.files.find? (fun f => (f.1.toLower).endsWith ".proof.csv") with
    | none => none
    | some csvFile =>
      let hashPart :=
        replaceFirst (baseNameOf csvFile.1) ".proof.csv" ""
      if hashPart ≠ "" && hashPart.length = 64 &&
          hashPart.toList.all (fun c =>
            c.isDigit || ('a' ≤ c && c ≤ 'f') || ('A' ≤ c && c ≤ 'F')) then
        some hashPart
      else none

/-- `parseBundle` over the already-extracted name→bytes mapping (the
`unzipSync` archive decompression is an external collaborator). -/
def parseBundle (env : JSEnv) (entries : List (String × List Nat)) :
    Except ParseError ParsedBundle :=
  let slots := entries.foldl (classifyEntry env) initSlots
  let metadataE : Except ParseError ProofModeMetadata :=
    match slots.csvData with
    | some csvBytes => Except.ok (parseCSV env (env.decode csvBytes))
    | none =>
      match slots.jsonData with
      | some jsonBytes => parseJSON env (env.decode jsonBytes)
      | none => Except.error ParseError.missingMetadata
  match metadataE with
  | Except.error e => Except.error e
  | Except.ok metadata =>
    Except.ok
      { metadata := metadata
        publicKey := slots.publicKey
        metadataSignature := slots.metadataSignature
        mediaSignature := slots.mediaSignature
        safetyNetToken := slots.safetyNetToken
        deviceCheckAttestation := slots.deviceCheckAttestation
        otsProof := slots.otsProof
        mediaFile := slots.mediaFile
        mediaFileName := slots.mediaFileName
        expectedHash := extractExpectedHash slots
        files := slots.files }

/-! ### Stamp builder (`src/create.ts`) -/

/-- The ordered list of signal keys that `createStampFromBundle` may add
on top of the copied canonical signals. -/
def derivedSignalKeys : List String :=
  ["SafetyNet.JWT", "DeviceCheck.Attestation", "HasOTS", "HasPGPKey",
   "PGP.PublicKey", "PGP.MetadataSignature", "FileHash"]

/-- The start-time resolution of `createStampFromBundle`:
truthy `Location.Time` (divided by 1000 and floored when its coerced
value is greater than 1e12, else assigned verbatim — including a truthy
string stored on a failed `parseFloat`) → truthy `Timestamp` (assigned
verbatim) → truthy `DateCreated` (`new Date(…).getTime()`, parsing a
string and numerically coercing any other primitive) → `Date.now()`.
The `as number | undefined` casts in the source do no runtime
filtering, so the raw stored values are read. -/
def resolveStartTime (env : JSEnv) (signals : SignalMap) : SigVal :=
  match truthySig (signals "Location.Time") with
  | some v =>
    if jltB (JSNum.val 1000000000000) (jsToNumber env v) then
      SigVal.num (jfloor (jdiv (jsToNumber env v) (JSNum.val 1000)))
    else v
  | none =>
    match truthySig (signals "Timestamp") with
    | some v => v
    | none =>
      match truthySig (signals "DateCreated") with
      | some (SigVal.str s) =>
        SigVal.num (jfloor (jdiv (env.dateParseMs s) (JSNum.val 1000)))
      | some v =>
        SigVal.num (jfloor (jdiv (jsToNumber env v) (JSNum.val 1000)))
      | none => SigVal.num (jfloor (jdiv env.nowMs (JSNum.val 1000)))

/-- The signal map of the built stamp: all canonical signals plus the
derived entries of `createStampFromBundle`. -/
def buildAllSignals (bundle : ParsedBundle) : SignalMap :=
  let allSignals := bundle.metadata.signals
  let allSignals :=
    match truthyStr bundle.safetyNetToken with
    | some tok => setSig allSignals "SafetyNet.JWT" (SigVal.str tok)
    | none => allSignals
  let allSignals :=
    match truthyStr bundle.deviceCheckAttestation with
    | some att => setSig allSignals "DeviceCheck.Attestation" (SigVal.str att)
    | none => allSignals
  let allSignals :=
    match bundle.otsProof with
    | some _ => setSig allSignals "HasOTS" (SigVal.bool true)
    | none => allSignals
  let allSignals :=
    match truthyStr bundle.publicKey with
    | some pk =>
      setSig (setSig allSignals "HasPGPKey" (SigVal.bool true))
        "PGP.PublicKey" (SigVal.str pk)
    | none => allSignals
  let allSignals :=
    match bundle.metadataSignature with
    | some sigBytes =>
      if sigBytes.length > 0 then
        setSig allSignals "PGP.MetadataSignature"
          (SigVal.str (base64Encode sigBytes))
      else allSignals
    | none => allSignals
  let allSignals :=
    match truthyStr bundle.expectedHash with
    | some h => setSig allSignals "FileHash" (SigVal.str h)
    | none => allSignals
  allSignals

/-- `createStampFromBundle`: build an unsigned stamp from a parsed
bundle, or throw when `Location.Latitude`/`Location.Longitude` is not a
finite number. -/
def createStampFromBundle (env : JSEnv) (bundle : ParsedBundle)
    (pluginVersion : String) : Except String Stamp :=
  let signals := bundle.metadata.signals
  match signals "Location.Latitude", signals "Location.Longitude" with
  | some (SigVal.num (JSNum.val la)), some (SigVal.num (JSNum.val lo)) =>
    let startTime := resolveStartTime env signals
    let endTime := jsAdd env startTime (SigVal.num (JSNum.val 1))
    Except.ok
      { lpVersion := "0.2"
        locationType := "geojson-point"
        location :=
          some ⟨"Point", [JSNum.val lo, JSNum.val la]⟩
        srs := "http://www.opengis.net/def/crs/OGC/1.3/CRS84"
        temporalFootprint := { start := startTime, stop := endTime }
        plugin := "proofmode"
        pluginVersion := pluginVersion
        signals := buildAllSignals bundle
        signatures := [] }
  | _, _ =>
    Except.error
      "ProofMode bundle missing or invalid Location.Latitude/Location.Longitude"

/-! ### Verifier (`src/verify.ts`) -/

/-- The fields extracted from a SafetyNet/Play Integrity JWT payload. -/
structure SafetyNetResult where
  basicIntegrity : Bool
  ctsProfileMatch : Bool
  evaluationType : Option Json
  apkPackageName : Option Json
  timestampMs : Option Json
  payload : Json

/-- `parseSafetyNetJWT`: structural JWT decoding (three dot-separated
parts, base64url payload, JSON body); certificate chains are not
verified. -/
def parseSafetyNetJWT (env : JSEnv) (jwt : String) :
    Option SafetyNetResult :=
  let parts := jwt.splitOn "."
  if parts.length ≠ 3 then none
  else
    match env.jsonParse (env.base64urlDecode (parts.getD 1 "")) with
    | none => none
    | some payload =>
      some
        { basicIntegrity := jsonTruthy ((jsonGet payload "basicIntegrity").getD Json.jnull)
          ctsProfileMatch := jsonTruthy ((jsonGet payload "ctsProfileMatch").getD Json.jnull)
          evaluationType := jsonGet payload "evaluationType"
          apkPackageName := jsonGet payload "apkPackageName"
          timestampMs := jsonGet payload "timestampMs"
          payload := payload }

/-- The structure-validity flag of `verifyProofModeStamp`. -/
def structureValidB (stamp : Stamp) : Bool :=
  (stamp.lpVersion == "0.2") && (stamp.plugin == "proofmode") &&
    stamp.location.isSome && sigTruthyB stamp.temporalFootprint.start &&
    sigTruthyB stamp.temporalFootprint.stop

/-- Validity of one signature entry: a nonempty string value and a
signer with a truthy value. -/
def signatureEntryOk (sig : StampSignature) : Bool :=
  (match sig.value with
   | SigVal.str s => s ≠ ""
   | _ => false) &&
  (match sig.signer with
   | some sg => sg.value ≠ ""
   | none => false)

/-- The signature-validity flag of `verifyProofModeStamp`. -/
def signaturesValidB (stamp : Stamp) : Bool :=
  !stamp.signatures.isEmpty && stamp.signatures.all signatureEntryOk

/-- The per-coordinate consistency check: pass when absent, fail when
present as a non-number, a non-finite number, or out of `[lo, hi]`. -/
def coordSignalOk (v : Option SigVal) (lo hi : ℚ) : Bool :=
  match v with
  | none => true
  | some (SigVal.num (JSNum.val x)) => decide (lo ≤ x) && decide (x ≤ hi)
  | some _ => false

/-- The timestamp-coherence check: with a truthy `Location.Time` (any
raw value — the `as number` cast does no filtering, so a truthy string
is coerced by the `> 1e12` comparison, the division and the drift
subtraction), the ms→s-normalized value must not drift more than 3600
seconds from the footprint start (itself coerced by the subtraction). -/
def driftOkB (env : JSEnv) (stamp : Stamp) : Bool :=
  match truthySig (stamp.signals "Location.Time") with
  | some v =>
    let locationTimeSec : SigVal :=
      if jltB (JSNum.val 1000000000000) (jsToNumber env v) then
        SigVal.num (jfloor (jdiv (jsToNumber env v) (JSNum.val 1000)))
      else v
    let drift := jabs (jsub (jsToNumber env locationTimeSec)
      (jsToNumber env stamp.temporalFootprint.start))
    !jltB (JSNum.val 3600) drift
  | none => true

/-- The signal-consistency flag of `verifyProofModeStamp`. -/
def signalsConsistentB (env : JSEnv) (stamp : Stamp) : Bool :=
  coordSignalOk (stamp.signals "Location.Latitude") (-90) 90 &&
    coordSignalOk (stamp.signals "Location.Longitude") (-180) 180 &&
    driftOkB env stamp

/-- The diagnostic `details` object accumulated by
`verifyProofModeStamp` (advisory only: provider/accuracy plausibility
and attestation decoding are recorded here and in no flag). The quote
characters inside the two mismatch message strings of the source are
omitted here; no theorem inspects message text. -/
def verifyDetails (env : JSEnv) (stamp : Stamp) : DetailsMap :=
  let d := emptyDetails
  let d := if stamp.lpVersion ≠ "0.2" then
      setD d "lpVersionError"
        (DVal.str ("Expected 0.2, got " ++ stamp.lpVersion))
    else d
  let d := if stamp.plugin ≠ "proofmode" then
      setD d "pluginMismatch"
        (DVal.str ("Expected proofmode, got " ++ stamp.plugin))
    else d
  let d := if stamp.location.isNone then setD d "missingLocation" (DVal.bool true)
    else d
  let d := if !sigTruthyB stamp.temporalFootprint.start ||
      !sigTruthyB stamp.temporalFootprint.stop then
      setD d "missingTemporalFootprint" (DVal.bool true)
    else d
  let d := if stamp.signatures.isEmpty then setD d "noSignatures" (DVal.bool true)
    else
      let d := if stamp.signatures.any (fun sig =>
          match sig.value with
          | SigVal.str s => s = ""
          | _ => true) then
          setD d "emptySignature" (DVal.bool true)
        else d
      let d := if stamp.signatures.any (fun sig =>
          match sig.signer with
          | some sg => sg.value = ""
          | none => true) then
          setD d "missingSigner" (DVal.bool true)
        else d
      let d := setD d "signatureCount"
        (DVal.num (JSNum.val stamp.signatures.length))
      setD d "signatureAlgorithms"
        (DVal.strList (stamp.signatures.map (·.algorithm)))
  let d := if !coordSignalOk (stamp.signals "Location.Latitude") (-90) 90 then
      setD d "invalidLatitude"
        (match stamp.signals "Location.Latitude" with
         | some (SigVal.num j) => DVal.num j
         | some (SigVal.str s) => DVal.str s
         | some (SigVal.bool b) => DVal.bool b
         | none => DVal.bool false)
    else d
  let d := if !coordSignalOk (stamp.signals "Location.Longitude") (-180) 180 then
      setD d "invalidLongitude"
        (match stamp.signals "Location.Longitude" with
         | some (SigVal.num j) => DVal.num j
         | some (SigVal.str s) => DVal.str s
         | some (SigVal.bool b) => DVal.bool b
         | none => DVal.bool false)
    else d
  let provider := truthySig (stamp.signals "Location.Provider")
  let accuracy := stamp.signals "Location.Accuracy"
  let d :=
    match provider, accuracy with
    | some p, some a =>
      let d := if p == SigVal.str "gps" &&
          jltB (JSNum.val 100) (jsToNumber env a) then
          setD d "suspiciousGPSAccuracy" (dvalOfSig a)
        else d
      if p == SigVal.str "network" &&
          jltB (jsToNumber env a) (JSNum.val 5) then
        setD d "suspiciousNetworkAccuracy" (dvalOfSig a)
      else d
    | _, _ => d
  let d :=
    match truthyStr (sigStrOpt stamp.signals "SafetyNet.JWT") with
    | some jwt =>
      match parseSafetyNetJWT env jwt with
      | some sn =>
        setD d "safetyNet"
          (DVal.snObj sn.basicIntegrity sn.ctsProfileMatch sn.evaluationType)
      | none => setD d "safetyNetParseError" (DVal.bool true)
    | none => d
  let d :=
    match truthySig (stamp.signals "Location.Time") with
    | some v =>
      let locationTimeSec : SigVal :=
        if jltB (JSNum.val 1000000000000) (jsToNumber env v) then
          SigVal.num (jfloor (jdiv (jsToNumber env v) (JSNum.val 1000)))
        else v
      let drift := jabs (jsub (jsToNumber env locationTimeSec)
        (jsToNumber env stamp.temporalFootprint.start))
      if jltB (JSNum.val 3600) drift then
        setD d "timestampDrift" (DVal.num drift)
      else d
    | none => d
  d

/-- `verifyProofModeStamp`: the three independent flags plus their
conjunction; never throws. -/
def verifyProofModeStamp (env : JSEnv) (stamp : Stamp) :
    StampVerificationResult :=
  let structureValid := structureValidB stamp
  let signaturesValid := signaturesValidB stamp
  let signalsConsistent := signalsConsistentB env stamp
  { valid := structureValid && signaturesValid && signalsConsistent
    structureValid := structureValid
    signaturesValid := signaturesValid
    signalsConsistent := signalsConsistent
    details := verifyDetails env stamp }

/-! ### Evaluator (`src/evaluate.ts`) -/

/-- `EARTH_RADIUS_M`. -/
def EARTH_RADIUS_M : JSNum := JSNum.val 6371000

/-- `MAX_PROOFMODE_SPATIAL`: the fixed spatial-confidence ceiling. -/
def MAX_PROOFMODE_SPATIAL : JSNum := JSNum.val (7/10)

/-- Degrees to radians (`(deg * Math.PI) / 180`). -/
def toRad (env : JSEnv) (deg : JSNum) : JSNum :=
  jdiv (jmul deg env.pi) (JSNum.val 180)

/-- `haversineDistance`: great-circle distance in meters (`x ** 2` is
embedded as `x * x`). -/
def haversineDistance (env : JSEnv) (lat1 lon1 lat2 lon2 : JSNum) : JSNum :=
  let dLat := toRad env (jsub lat2 lat1)
  let dLon := toRad env (jsub lon2 lon1)
  let sinHalfLat := env.sin (jdiv dLat (JSNum.val 2))
  let sinHalfLon := env.sin (jdiv dLon (JSNum.val 2))
  let a :=
    jadd (jmul sinHalfLat sinHalfLat)
      (jmul (jmul (env.cos (toRad env lat1)) (env.cos (toRad env lat2)))
        (jmul sinHalfLon sinHalfLon))
  jmul (jmul (JSNum.val 2) EARTH_RADIUS_M) (env.asin (env.sqrt a))

/-- `temporalOverlap`: overlap duration over the shorter interval.
`Math.max`, `Math.min` and the subtractions numerically coerce the raw
footprint fields. -/
def temporalOverlap (env : JSEnv) (a b : TemporalFootprint) : JSNum :=
  let overlapStart := jmax (jsToNumber env a.start) (jsToNumber env b.start)
  let overlapEnd := jmin (jsToNumber env a.stop) (jsToNumber env b.stop)
  if jleB overlapEnd overlapStart then JSNum.val 0
  else
    let overlap := jsub overlapEnd overlapStart
    let shorter := jmin
      (jsub (jsToNumber env a.stop) (jsToNumber env a.start))
      (jsub (jsToNumber env b.stop) (jsToNumber env b.start))
    if jltB (JSNum.val 0) shorter then jdiv overlap shorter else JSNum.val 0

/-- Extracted point coordinates (latitude, longitude). -/
structure Coords where
  lat : JSNum
  lon : JSNum
deriving DecidableEq, Repr

/-- `extractCoords`: read a GeoJSON-style point (first ordinate is the
longitude, second the latitude); `none` when the location is absent or
its coordinate array is shorter than 2. -/
def extractCoords (location : Option Location) : Option Coords :=
  match location with
  | some loc =>
    if loc.coordinates.length ≥ 2 then
      some { lat := loc.coordinates.getD 1 JSNum.nan,
             lon := loc.coordinates.getD 0 JSNum.nan }
    else none
  | none => none

/-- The zero vector returned when a side's coordinates are unreadable. -/
def zeroVector (msg : String) : CredibilityVector :=
  { supportsClaim := false
    score := JSNum.val 0
    spatial := JSNum.val 0
    temporal := JSNum.val 0
    details := setD emptyDetails "error" (DVal.str msg) }

/-- `evaluateProofModeStamp`: spatial + temporal + signal-quality
scoring of a stamp against a claim. -/
def evaluateProofModeStamp (env : JSEnv) (stamp : Stamp)
    (claim : LocationClaim) : CredibilityVector :=
  match extractCoords stamp.location with
  | none => zeroVector "Cannot extract coordinates from stamp"
  | some stampCoords =>
    match extractCoords claim.location with
    | none => zeroVector "Cannot extract coordinates from claim"
    | some claimCoords =>
      let distance := haversineDistance env stampCoords.lat stampCoords.lon
        claimCoords.lat claimCoords.lon
      let accuracy := (stamp.signals "Location.Accuracy").getD
        (SigVal.num (JSNum.val 0))
      let effectiveRadius := jsAdd env (SigVal.num claim.radius) accuracy
      let spatial :=
        if jleB distance (jsToNumber env effectiveRadius) then
          jsub (JSNum.val 1) (jdiv distance (jsToNumber env effectiveRadius))
        else
          jmax (JSNum.val 0)
            (jsub (JSNum.val 1)
              (jdiv distance
                (jmul (jsToNumber env effectiveRadius) (JSNum.val 3))))
      let spatial := jmin spatial MAX_PROOFMODE_SPATIAL
      let details := emptyDetails
      let details := setD details "distanceMeters" (DVal.num (jround distance))
      let details := setD details "effectiveRadiusMeters"
        (dvalOfSig effectiveRadius)
      let details := setD details "accuracyMeters" (dvalOfSig accuracy)
      let temporal := temporalOverlap env stamp.temporalFootprint claim.time
      let details := setD details "temporalOverlap" (DVal.num temporal)
      let sn := stamp.signals "SafetyNet.BasicIntegrity"
      let snBonus : Bool :=
        sn == some (SigVal.bool true) || sn == some (SigVal.str "true")
      let hasOts := stamp.signals "HasOTS"
      let otsBonus : Bool :=
        hasOts == some (SigVal.bool true) || hasOts == some (SigVal.str "true")
      let provider := stamp.signals "Location.Provider"
      let networkPenalty : Bool := provider == some (SigVal.str "network")
      let hasCell := (stamp.signals "CellInfo").isSome
      let hasWifi := (stamp.signals "WiFi.MAC").isSome
      let missingContext : Bool := !hasCell && !hasWifi
      let signalBonus : ℚ :=
        (if snBonus then (1/20 : ℚ) else 0) +
        (if otsBonus then (3/100 : ℚ) else 0) -
        (if networkPenalty then (1/10 : ℚ) else 0) -
        (if missingContext then (1/20 : ℚ) else 0)
      let details := if snBonus then
          setD details "safetyNetBonus" (DVal.bool true)
        else details
      let details := if otsBonus then
          setD details "otsBonus" (DVal.bool true)
        else details
      let details := if networkPenalty then
          setD details "networkOnlyPenalty" (DVal.bool true)
        else details
      let details := if missingContext then
          setD details "missingNetworkContext" (DVal.bool true)
        else details
      let details := setD details "signalBonus" (DVal.num (JSNum.val signalBonus))
      let rawScore :=
        jadd
          (jadd (jmul spatial (JSNum.val (3/5)))
            (jmul temporal (JSNum.val (2/5))))
          (JSNum.val signalBonus)
      let score := jmax (JSNum.val 0) (jmin (JSNum.val 1) rawScore)
      let supportsClaim :=
        jltB (JSNum.val (3/10)) score && jltB (JSNum.val (1/10)) spatial &&
          jltB (JSNum.val 0) temporal
      { supportsClaim := supportsClaim
        score := score
        spatial := spatial
        temporal := temporal
        details := details }

/-! ### Concrete sample inputs used by witnesses and counterexamples -/

/-- Whether an `Except` result is a success. -/
def isOkB {ε α : Type} : Except ε α → Bool
  | Except.ok _ => true
  | Except.error _ => false

/-- A default stamp used to destructure successful `Except` results. -/
def defaultStamp : Stamp :=
  { lpVersion := "", locationType := "", location := none, srs := "",
    temporalFootprint := ⟨SigVal.num (JSNum.val 0), SigVal.num (JSNum.val 0)⟩,
    plugin := "", pluginVersion := "", signals := emptySignals,
    signatures := [] }

/-- The stamp carried by a successful creation result. -/
def stampOf (e : Except String Stamp) : Stamp :=
  match e with
  | Except.ok s => s
  | Except.error _ => defaultStamp

/-- A concrete decimal-numeral parser serving as a sample `parseFloat`
instance for witnesses (returns NaN on anything else). -/
def sampleParseFloat (s : String) : JSNum :=
  let chars := s.toList
  let core : List Char → Option ℚ := fun cs =>
    let intPart := cs.takeWhile Char.isDigit
    let rest := cs.drop intPart.length
    if intPart = [] then none
    else
      let intVal : ℕ :=
        intPart.foldl (fun acc c => 10 * acc + (c.toNat - 48)) 0
      match rest with
      | [] => some (intVal : ℚ)
      | '.' :: fracPart =>
        if fracPart ≠ [] && fracPart.all Char.isDigit then
          let fracVal : ℕ :=
            fracPart.foldl (fun acc c => 10 * acc + (c.toNat - 48)) 0
          some ((intVal : ℚ) + (fracVal : ℚ) / ((10 : ℚ) ^ fracPart.length))
        else none
      | _ => none
  match chars with
  | '-' :: t =>
    match core t with
    | some q => JSNum.val (-q)
    | none => JSNum.nan
  | t =>
    match core t with
    | some q => JSNum.val q
    | none => JSNum.nan

/-- A concrete decimal renderer serving as a sample number-to-string
conversion for witnesses. -/
def sampleNumToString (q : ℚ) : String :=
  if q.den = 1 then toString q.num
  else toString q.num ++ "/" ++ toString q.den

/-- A concrete sample ToNumber instance for witnesses (the empty string
converts to 0, otherwise the decimal parse). -/
def sampleToNumber (s : String) : JSNum :=
  if s = "" then JSNum.val 0 else sampleParseFloat s

/-- ASCII bytes of a string (sample `TextEncoder`/ZIP content). -/
def strBytes (s : String) : List Nat := s.toList.map Char.toNat

/-- A concrete environment instance for witnesses; the trigonometric
entries agree with `Math` on the arguments the witnesses evaluate them
at, and are NaN elsewhere. -/
def sampleEnv : JSEnv :=
  { parseFloat := sampleParseFloat
    numToString := sampleNumToString
    toNumber := sampleToNumber
    dateParseMs := fun _ => JSNum.nan
    nowMs := JSNum.val 1800000000000
    jsonParse := fun _ => none
    decode := fun bytes => String.mk (bytes.map Char.ofNat)
    base64urlDecode := fun _ => ""
    pi := JSNum.val (314159265358979 / 100000000000000)
    sin := fun j => if j = JSNum.val 0 then JSNum.val 0 else JSNum.nan
    cos := fun j => if j = JSNum.val 0 then JSNum.val 1 else JSNum.nan
    asin := fun j => if j = JSNum.val 0 then JSNum.val 0 else JSNum.nan
    sqrt := fun j => if j = JSNum.val 0 then JSNum.val 0 else JSNum.nan }

/-- Builds a signal map from an association list (for samples). -/
def signalsOfList (l : List (String × SigVal)) : SignalMap :=
  fun k => l.lookup k

/-- A bundle with no artifacts and the given signal map. -/
def bareBundle (m : SignalMap) : ParsedBundle :=
  { metadata := { signals := m, format := MetaFormat.csv, fileHash := none }
    publicKey := none, metadataSignature := none, mediaSignature := none,
    safetyNetToken := none, deviceCheckAttestation := none, otsProof := none,
    mediaFile := none, mediaFileName := none, expectedHash := none,
    files := [] }

/-! ### Shared lemmas -/

/-- The capped minimum is NaN or at most the cap. -/
theorem jmin_cap (j : JSNum) (q : ℚ) :
    jmin j (JSNum.val q) = JSNum.nan ∨
      jleB (jmin j (JSNum.val q)) (JSNum.val q) = true := by
  cases j with
  | nan => exact Or.inl rfl
  | posInf => exact Or.inr (by simp [jmin, jleB])
  | negInf => exact Or.inr (by simp [jmin, jleB])
  | val x => exact Or.inr (by simp [jmin, jleB, min_le_right])

/-! ### Claim C2 -/

/-- C2 (amended): for every environment, stamp and claim, the spatial
component returned by `evaluateProofModeStamp` is either at most 0.7 or
NaN (the unguarded division can produce NaN, so the 0.7 bound holds
whenever the component is a number). -/
theorem evaluator_spatial_capped_or_nan (env : JSEnv) (stamp : Stamp)
    (claim : LocationClaim) :
    (evaluateProofModeStamp env stamp claim).spatial = JSNum.nan ∨
      jleB (evaluateProofModeStamp env stamp claim).spatial
        MAX_PROOFMODE_SPATIAL = true := by
  unfold evaluateProofModeStamp
  cases hs : extractCoords stamp.location with
  | none =>
    refine Or.inr ?_
    simp only [zeroVector, MAX_PROOFMODE_SPATIAL, jleB]
    norm_num
  | some sc =>
    cases hc : extractCoords claim.location with
    | none =>
      refine Or.inr ?_
      simp only [zeroVector, MAX_PROOFMODE_SPATIAL, jleB]
      norm_num
    | some cc =>
      simp only [MAX_PROOFMODE_SPATIAL]
      exact jmin_cap _ _

/-- C2 counterexample: with identical coordinates, claim radius 0 and no
accuracy signal the spatial component is NaN, which the JavaScript
comparison `spatial <= 0.7` rejects. -/
def c2stamp : Stamp :=
  { defaultStamp with
    location := some ⟨"Point", [JSNum.val 0, JSNum.val 0]⟩ }

/-- The claim evaluated against `c2stamp` from the same point. -/
def c2claim : LocationClaim :=
  { location := some ⟨"Point", [JSNum.val 0, JSNum.val 0]⟩
    radius := JSNum.val 0
    time := ⟨SigVal.num (JSNum.val 0), SigVal.num (JSNum.val 10)⟩ }

/-- C2 counterexample theorem: the spatial component of a concrete
evaluation is NaN and not `<=` 0.7. -/
theorem evaluator_spatial_not_always_le_cap :
    (evaluateProofModeStamp sampleEnv c2stamp c2claim).spatial = JSNum.nan ∧
      jleB (evaluateProofModeStamp sampleEnv c2stamp c2claim).spatial
        MAX_PROOFMODE_SPATIAL = false := by
  constructor <;> with_unfolding_all decide

/-! ### Claim C3 -/

/-- C3: `supportsClaim` is exactly the conjunction of the three gates
`score > 0.3`, `spatial > 0.1` and `temporal > 0`; in particular a zero
temporal component forces `supportsClaim = false`. -/
theorem supports_claim_three_gates (env : JSEnv) (stamp : Stamp)
    (claim : LocationClaim) :
    ((evaluateProofModeStamp env stamp claim).supportsClaim =
      (jltB (JSNum.val (3/10)) (evaluateProofModeStamp env stamp claim).score &&
       jltB (JSNum.val (1/10)) (evaluateProofModeStamp env stamp claim).spatial &&
       jltB (JSNum.val 0) (evaluateProofModeStamp env stamp claim).temporal)) ∧
    ((evaluateProofModeStamp env stamp claim).temporal = JSNum.val 0 →
      (evaluateProofModeStamp env stamp claim).supportsClaim = false) := by
  have h30 : jltB (JSNum.val (3/10)) (JSNum.val 0) = false := by
    with_unfolding_all decide
  have h00 : jltB (JSNum.val 0) (JSNum.val 0) = false := by
    with_unfolding_all decide
  have hmain : (evaluateProofModeStamp env stamp claim).supportsClaim =
      (jltB (JSNum.val (3/10)) (evaluateProofModeStamp env stamp claim).score &&
       jltB (JSNum.val (1/10)) (evaluateProofModeStamp env stamp claim).spatial &&
       jltB (JSNum.val 0) (evaluateProofModeStamp env stamp claim).temporal) := by
    unfold evaluateProofModeStamp
    cases hs : extractCoords stamp.location with
    | none => simp [zeroVector, h30]
    | some sc =>
      cases hc : extractCoords claim.location with
      | none => simp [zeroVector, h30]
      | some cc => rfl
  refine ⟨hmain, fun h => ?_⟩
  rw [hmain, h, h00]
  simp

/-- The stamp used by the C3 witness: its location is unreadable, so the
evaluator returns the zero vector. -/
def c3stamp : Stamp := defaultStamp

/-- The claim used by the C3 witness. -/
def c3claim : LocationClaim :=
  { location := some ⟨"Point", [JSNum.val 0, JSNum.val 0]⟩
    radius := JSNum.val 100
    time := ⟨SigVal.num (JSNum.val 0), SigVal.num (JSNum.val 10)⟩ }

/-- C3 witness: at a concrete input with zero temporal component the
theorem yields `supportsClaim = false`. -/
theorem supports_claim_three_gates_witness :
    (evaluateProofModeStamp sampleEnv c3stamp c3claim).supportsClaim = false :=
  (supports_claim_three_gates sampleEnv c3stamp c3claim).2
    (by with_unfolding_all decide)

/-! ### Claim C9 -/

/-- C9 (amended): with identical point coordinates on both sides, claim
radius 0 and no `Location.Accuracy` signal at all, the effective radius
and the distance are both 0, the unguarded division yields
`spatial = NaN` and `score = NaN`, and `supportsClaim` is false. (A
present non-numeric accuracy signal is different: `?? 0` defaults only
undefined, so a string accuracy is concatenated and coerced instead.)
The hypotheses on `env` state what the `Math` builtins return on the
arguments that occur (`sin 0 = 0`, `sqrt 0 = 0`, `asin 0 = 0`,
`Math.PI` and the cosine of the latitude are finite). -/
theorem evaluator_nan_on_degenerate_radius (env : JSEnv) (stamp : Stamp)
    (claim : LocationClaim) (la lo p c : ℚ)
    (hs : extractCoords stamp.location =
      some { lat := JSNum.val la, lon := JSNum.val lo })
    (hc : extractCoords claim.location =
      some { lat := JSNum.val la, lon := JSNum.val lo })
    (hr : claim.radius = JSNum.val 0)
    (ha : stamp.signals "Location.Accuracy" = none)
    (hpi : env.pi = JSNum.val p)
    (hsin : env.sin (JSNum.val 0) = JSNum.val 0)
    (hcos : env.cos (toRad env (JSNum.val la)) = JSNum.val c)
    (hsqrt : env.sqrt (JSNum.val 0) = JSNum.val 0)
    (hasin : env.asin (JSNum.val 0) = JSNum.val 0) :
    (evaluateProofModeStamp env stamp claim).spatial = JSNum.nan ∧
    (evaluateProofModeStamp env stamp claim).score = JSNum.nan ∧
    (evaluateProofModeStamp env stamp claim).supportsClaim = false := by
  have hsub0 : jsub (JSNum.val la) (JSNum.val la) = JSNum.val 0 := by
    simp [jsub, jneg, jadd]
  have hsub1 : jsub (JSNum.val lo) (JSNum.val lo) = JSNum.val 0 := by
    simp [jsub, jneg, jadd]
  have htoRad0 : toRad env (JSNum.val 0) = JSNum.val 0 := by
    unfold toRad
    rw [hpi]
    simp only [jmul, jdiv]
    norm_num
  have hdiv02 : jdiv (JSNum.val 0) (JSNum.val 2) = JSNum.val 0 := by
    simp only [jdiv]
    norm_num
  have hdist : haversineDistance env (JSNum.val la) (JSNum.val lo)
      (JSNum.val la) (JSNum.val lo) = JSNum.val 0 := by
    simp only [haversineDistance, hsub0, hsub1, htoRad0, hdiv02, hsin, hcos]
    simp only [jmul, jadd, EARTH_RADIUS_M]
    norm_num
    rw [hsqrt, hasin]
    norm_num [jmul]
  have hleB : jleB (JSNum.val 0) (JSNum.val 0) = true := by
    with_unfolding_all decide
  unfold evaluateProofModeStamp
  rw [hs, hc]
  simp only [hdist, hr, ha, Option.getD, jsAdd, jsToNumber, jadd, hleB,
    jdiv, jsub, jneg, jmul, jmin, jmax, jltB, MAX_PROOFMODE_SPATIAL]
  norm_num

/-- The stamp used by the C9 witness. -/
def c9stamp : Stamp :=
  { defaultStamp with
    location := some ⟨"Point", [JSNum.val 0, JSNum.val 0]⟩ }

/-- The claim used by the C9 witness: same point, radius 0. -/
def c9claim : LocationClaim :=
  { location := some ⟨"Point", [JSNum.val 0, JSNum.val 0]⟩
    radius := JSNum.val 0
    time := ⟨SigVal.num (JSNum.val 0), SigVal.num (JSNum.val 10)⟩ }

set_option maxRecDepth 4000 in
/-- C9 witness: the theorem applied at a concrete degenerate input. -/
theorem evaluator_nan_on_degenerate_radius_witness :
    (evaluateProofModeStamp sampleEnv c9stamp c9claim).spatial = JSNum.nan ∧
    (evaluateProofModeStamp sampleEnv c9stamp c9claim).score = JSNum.nan ∧
    (evaluateProofModeStamp sampleEnv c9stamp c9claim).supportsClaim = false :=
  evaluator_nan_on_degenerate_radius sampleEnv c9stamp c9claim 0 0
    (314159265358979 / 100000000000000) 1
    (by with_unfolding_all decide) (by with_unfolding_all decide) rfl
    (by with_unfolding_all decide) rfl rfl
    (by with_unfolding_all decide) rfl rfl

/-- The C9 counterexample stamp: identical coordinates but the accuracy
signal is the string "50" (stored by the normalizer when `parseFloat`
fails) — a stamp with no *numeric* accuracy signal. -/
def c9strStamp : Stamp :=
  { defaultStamp with
    location := some ⟨"Point", [JSNum.val 0, JSNum.val 0]⟩
    signals := signalsOfList [("Location.Accuracy", SigVal.str "50")] }

/-- The claim evaluated against `c9strStamp` from the same point. -/
def c9strClaim : LocationClaim :=
  { location := some ⟨"Point", [JSNum.val 0, JSNum.val 0]⟩
    radius := JSNum.val 0
    time := ⟨SigVal.num (JSNum.val 0), SigVal.num (JSNum.val 10)⟩ }

/-- C9 counterexample: with a string accuracy signal "50" — so no
numeric accuracy signal, identical points and radius 0, satisfying the
claim as stated — `?? 0` does not default it (only undefined), the
`+` concatenates `0 + "50" = "050"`, the comparison and division coerce
it to 50, and the spatial component is 0.7, not NaN. -/
theorem evaluator_string_accuracy_defeats_nan :
    c9strStamp.signals "Location.Accuracy" = some (SigVal.str "50") ∧
    (evaluateProofModeStamp sampleEnv c9strStamp c9strClaim).spatial =
      JSNum.val (7/10) ∧
    (evaluateProofModeStamp sampleEnv c9strStamp c9strClaim).spatial ≠
      JSNum.nan := by
  refine ⟨by with_unfolding_all rfl, by with_unfolding_all rfl, ?_⟩
  rw [show (evaluateProofModeStamp sampleEnv c9strStamp c9strClaim).spatial =
    JSNum.val (7/10) from by with_unfolding_all rfl]
  simp

/-! ### Claim C1 -/

/-- Whether an optional signal value is a finite number. -/
def finiteNumSig : Option SigVal → Bool
  | some (SigVal.num (JSNum.val _)) => true
  | _ => false

/-- C1 (amended): `createStampFromBundle` succeeds exactly when both
`Location.Latitude` and `Location.Longitude` are present as finite
numbers, and otherwise fails with the missing-coordinates error; no
range check is performed (out-of-range finite coordinates are
accepted). -/
theorem creation_requires_finite_coordinates (env : JSEnv)
    (bundle : ParsedBundle) (v : String) :
    (isOkB (createStampFromBundle env bundle v) =
      (finiteNumSig (bundle.metadata.signals "Location.Latitude") &&
       finiteNumSig (bundle.metadata.signals "Location.Longitude"))) ∧
    ((finiteNumSig (bundle.metadata.signals "Location.Latitude") &&
      finiteNumSig (bundle.metadata.signals "Location.Longitude")) = false →
      createStampFromBundle env bundle v = Except.error
        "ProofMode bundle missing or invalid Location.Latitude/Location.Longitude") := by
  unfold createStampFromBundle
  cases h1 : bundle.metadata.signals "Location.Latitude" with
  | none => simp [isOkB, finiteNumSig, h1]
  | some v1 =>
    cases v1 with
    | str s => simp [isOkB, finiteNumSig, h1]
    | bool b => simp [isOkB, finiteNumSig, h1]
    | num j1 =>
      cases j1 with
      | nan => simp [isOkB, finiteNumSig, h1]
      | posInf => simp [isOkB, finiteNumSig, h1]
      | negInf => simp [isOkB, finiteNumSig, h1]
      | val la =>
        cases h2 : bundle.metadata.signals "Location.Longitude" with
        | none => simp [isOkB, finiteNumSig, h1, h2]
        | some v2 =>
          cases v2 with
          | str s => simp [isOkB, finiteNumSig, h1, h2]
          | bool b => simp [isOkB, finiteNumSig, h1, h2]
          | num j2 => cases j2 <;> simp [isOkB, finiteNumSig, h1, h2]

/-- The C1 counterexample bundle: latitude 100 (finite but outside
[-90, 90]), longitude 0. -/
def c1bundle : ParsedBundle :=
  bareBundle (signalsOfList
    [("Location.Latitude", SigVal.num (JSNum.val 100)),
     ("Location.Longitude", SigVal.num (JSNum.val 0)),
     ("Timestamp", SigVal.num (JSNum.val 1700000000))])

/-- C1 counterexample: a bundle whose latitude is the finite number 100 —
outside the valid range — still yields a stamp, so creation does not
fail on out-of-range coordinates. -/
theorem creation_accepts_out_of_range_latitude :
    c1bundle.metadata.signals "Location.Latitude" =
      some (SigVal.num (JSNum.val 100)) ∧
    ¬((100 : ℚ) ≤ 90) ∧
    isOkB (createStampFromBundle sampleEnv c1bundle "0.1.0") = true := by
  refine ⟨by with_unfolding_all rfl, by norm_num, by with_unfolding_all rfl⟩

/-- The C1 witness bundle: no latitude signal at all. -/
def c1witnessBundle : ParsedBundle := bareBundle emptySignals

/-- C1 witness: the theorem applied at a concrete bundle with no
coordinates, which fails with the missing-coordinates error. -/
theorem creation_requires_finite_coordinates_witness :
    createStampFromBundle sampleEnv c1witnessBundle "0.1.0" = Except.error
      "ProofMode bundle missing or invalid Location.Latitude/Location.Longitude" :=
  (creation_requires_finite_coordinates sampleEnv c1witnessBundle "0.1.0").2
    (by with_unfolding_all rfl)

/-! ### Claim C5 -/

/-- The C5 round-trip bundle from the spec example. -/
def c5bundle : ParsedBundle :=
  bareBundle (signalsOfList
    [("Location.Latitude", SigVal.num (JSNum.val (407484/10000))),
     ("Location.Longitude", SigVal.num (JSNum.val (-739857/10000))),
     ("Location.Accuracy", SigVal.num (JSNum.val 10)),
     ("Location.Provider", SigVal.str "gps"),
     ("Location.Time", SigVal.num (JSNum.val 1700000000000))])

/-- C5 (amended): for every successfully built stamp the footprint start
is resolved from the raw stored signal values (the `as number | undefined`
casts do no runtime filtering) by the precedence truthy `Location.Time`
(numerically coerced for the `> 1e12` test and, when that test holds,
divided by 1000 and floored; otherwise assigned verbatim — a truthy
string stays a string) → truthy `Timestamp` (assigned verbatim) → truthy
string `DateCreated` (parsed to epoch seconds) → current wall clock, and
`end = start + 1` under JavaScript `+` (numeric addition, or string
concatenation when start is a string); the spec example bundle yields
coordinates `[-73.9857, 40.7484]` and footprint
`{1700000000, 1700000001}`. -/
theorem footprint_resolution (env : JSEnv) (bundle : ParsedBundle)
    (v : String) (s : Stamp)
    (h : createStampFromBundle env bundle v = Except.ok s) :
    ((∀ t, truthySig (bundle.metadata.signals "Location.Time") = some t →
        s.temporalFootprint.start =
          (if jltB (JSNum.val 1000000000000) (jsToNumber env t) then
            SigVal.num (jfloor (jdiv (jsToNumber env t) (JSNum.val 1000)))
          else t)) ∧
     (truthySig (bundle.metadata.signals "Location.Time") = none →
      ∀ t, truthySig (bundle.metadata.signals "Timestamp") = some t →
        s.temporalFootprint.start = t) ∧
     (truthySig (bundle.metadata.signals "Location.Time") = none →
      truthySig (bundle.metadata.signals "Timestamp") = none →
      ∀ d, truthySig (bundle.metadata.signals "DateCreated") =
          some (SigVal.str d) →
        s.temporalFootprint.start =
          SigVal.num (jfloor (jdiv (env.dateParseMs d) (JSNum.val 1000)))) ∧
     (truthySig (bundle.metadata.signals "Location.Time") = none →
      truthySig (bundle.metadata.signals "Timestamp") = none →
      truthySig (bundle.metadata.signals "DateCreated") = none →
        s.temporalFootprint.start =
          SigVal.num (jfloor (jdiv env.nowMs (JSNum.val 1000)))) ∧
     (s.temporalFootprint.stop =
        jsAdd env s.temporalFootprint.start (SigVal.num (JSNum.val 1)))) ∧
    ((stampOf (createStampFromBundle sampleEnv c5bundle "0.1.0")).location =
        some ⟨"Point", [JSNum.val (-739857/10000), JSNum.val (407484/10000)]⟩ ∧
     (stampOf (createStampFromBundle sampleEnv c5bundle "0.1.0")).temporalFootprint =
        ⟨SigVal.num (JSNum.val 1700000000),
          SigVal.num (JSNum.val 1700000001)⟩) := by
  unfold createStampFromBundle at h
  simp only [] at h
  refine ⟨?_, by with_unfolding_all rfl, by with_unfolding_all rfl⟩
  rcases hmatch : bundle.metadata.signals "Location.Latitude" with _ | v1
  · rw [hmatch] at h; exact absurd h (by simp)
  rcases v1 with j1 | s1 | b1
  rotate_left
  · rw [hmatch] at h; exact absurd h (by simp)
  · rw [hmatch] at h; exact absurd h (by simp)
  rcases j1 with _ | _ | _ | la
  · rw [hmatch] at h; exact absurd h (by simp)
  · rw [hmatch] at h; exact absurd h (by simp)
  · rw [hmatch] at h; exact absurd h (by simp)
  rcases hmatch2 : bundle.metadata.signals "Location.Longitude" with _ | v2
  · rw [hmatch, hmatch2] at h; exact absurd h (by simp)
  rcases v2 with j2 | s2 | b2
  rotate_left
  · rw [hmatch, hmatch2] at h; exact absurd h (by simp)
  · rw [hmatch, hmatch2] at h; exact absurd h (by simp)
  rcases j2 with _ | _ | _ | lo
  · rw [hmatch, hmatch2] at h; exact absurd h (by simp)
  · rw [hmatch, hmatch2] at h; exact absurd h (by simp)
  · rw [hmatch, hmatch2] at h; exact absurd h (by simp)
  rw [hmatch, hmatch2] at h
  simp only [Except.ok.injEq] at h
  subst h
  refine ⟨?_, ?_, ?_, ?_, rfl⟩
  · intro t ht
    simp [resolveStartTime, ht]
  · intro hlt t ht
    simp [resolveStartTime, hlt, ht]
  · intro hlt hts d hd
    simp [resolveStartTime, hlt, hts, hd]
  · intro hlt hts hd
    simp [resolveStartTime, hlt, hts, hd]

/-- The C5 counterexample bundle: a truthy `Location.Time` of
−2·10¹² whose magnitude exceeds 1e12 but whose value does not. -/
def c5negBundle : ParsedBundle :=
  bareBundle (signalsOfList
    [("Location.Latitude", SigVal.num (JSNum.val 40)),
     ("Location.Longitude", SigVal.num (JSNum.val (-73))),
     ("Location.Time", SigVal.num (JSNum.val (-2000000000000)))])

/-- The second C5 counterexample bundle: a truthy non-numeric
`Location.Time` string (as stored by the normalizer on a failed
`parseFloat`) alongside a numeric `Timestamp`. -/
def c5noonBundle : ParsedBundle :=
  bareBundle (signalsOfList
    [("Location.Latitude", SigVal.num (JSNum.val 40)),
     ("Location.Longitude", SigVal.num (JSNum.val (-73))),
     ("Location.Time", SigVal.str "noon"),
     ("Timestamp", SigVal.num (JSNum.val 1700000000))])

/-- C5 counterexample, two parts. (1) The code compares the signed
value with 1e12 (`locationTimeMs > 1e12`), not its magnitude, so a
`Location.Time` of −2·10¹² (magnitude above 1e12) is taken as seconds
unchanged instead of being divided by 1000. (2) The truthiness test
`if (locationTimeMs)` fires on any truthy value, so a non-numeric
`Location.Time` string "noon" is assigned verbatim as the footprint
start (and `+ 1` concatenates, giving end "noon1"); the numeric
`Timestamp` fallback the claim describes is never consulted. -/
theorem footprint_negative_time_not_treated_as_ms :
    ((stampOf (createStampFromBundle sampleEnv c5negBundle "0.1.0")).temporalFootprint.start =
        SigVal.num (JSNum.val (-2000000000000)) ∧
      |(-2000000000000 : ℚ)| > 1000000000000 ∧
      SigVal.num (JSNum.val (-2000000000000)) ≠
        SigVal.num (JSNum.val (-2000000000))) ∧
    ((stampOf (createStampFromBundle sampleEnv c5noonBundle "0.1.0")).temporalFootprint.start =
        SigVal.str "noon" ∧
      (stampOf (createStampFromBundle sampleEnv c5noonBundle "0.1.0")).temporalFootprint.stop =
        SigVal.str "noon1" ∧
      SigVal.str "noon" ≠
        SigVal.num (JSNum.val 1700000000)) := by
  refine ⟨⟨by with_unfolding_all rfl, by norm_num, ?_⟩,
    by with_unfolding_all rfl, by with_unfolding_all rfl, by simp⟩
  simp only [ne_eq, SigVal.num.injEq, JSNum.val.injEq]
  norm_num

/-- C5 witness: the theorem applied at the spec example bundle. -/
theorem footprint_resolution_witness :
    (stampOf (createStampFromBundle sampleEnv c5bundle "0.1.0")).temporalFootprint.start =
      (if jltB (JSNum.val 1000000000000)
          (jsToNumber sampleEnv (SigVal.num (JSNum.val 1700000000000))) then
        SigVal.num (jfloor (jdiv
          (jsToNumber sampleEnv (SigVal.num (JSNum.val 1700000000000)))
          (JSNum.val 1000)))
      else SigVal.num (JSNum.val 1700000000000)) :=
  ((footprint_resolution sampleEnv c5bundle "0.1.0"
      (stampOf (createStampFromBundle sampleEnv c5bundle "0.1.0"))
      (by with_unfolding_all rfl)).1.1
    (SigVal.num (JSNum.val 1700000000000)) (by with_unfolding_all rfl))

/-! ### Claim C8 -/

/-- A successful creation pins down the stamp: the coordinates exist as
finite numbers and the stamp is the literal record built by
`createStampFromBundle`. -/
theorem create_ok_eq (env : JSEnv) (bundle : ParsedBundle) (v : String)
    (s : Stamp) (h : createStampFromBundle env bundle v = Except.ok s) :
    ∃ la lo,
      bundle.metadata.signals "Location.Latitude" =
        some (SigVal.num (JSNum.val la)) ∧
      bundle.metadata.signals "Location.Longitude" =
        some (SigVal.num (JSNum.val lo)) ∧
      s = { lpVersion := "0.2"
            locationType := "geojson-point"
            location := some ⟨"Point", [JSNum.val lo, JSNum.val la]⟩
            srs := "http://www.opengis.net/def/crs/OGC/1.3/CRS84"
            temporalFootprint :=
              { start := resolveStartTime env bundle.metadata.signals
                stop := jsAdd env (resolveStartTime env bundle.metadata.signals)
                  (SigVal.num (JSNum.val 1)) }
            plugin := "proofmode"
            pluginVersion := v
            signals := buildAllSignals bundle
            signatures := [] } := by
  unfold createStampFromBundle at h
  simp only [] at h
  rcases hmatch : bundle.metadata.signals "Location.Latitude" with _ | v1 <;>
    rw [hmatch] at h
  · exact absurd h (by simp)
  rcases v1 with j1 | s1 | b1
  rotate_left
  · exact absurd h (by simp)
  · exact absurd h (by simp)
  rcases j1 with _ | _ | _ | la
  · exact absurd h (by simp)
  · exact absurd h (by simp)
  · exact absurd h (by simp)
  rcases hmatch2 : bundle.metadata.signals "Location.Longitude" with _ | v2 <;>
    rw [hmatch2] at h
  · exact absurd h (by simp)
  rcases v2 with j2 | s2 | b2
  rotate_left
  · exact absurd h (by simp)
  · exact absurd h (by simp)
  rcases j2 with _ | _ | _ | lo
  · exact absurd h (by simp)
  · exact absurd h (by simp)
  · exact absurd h (by simp)
  simp only [Except.ok.injEq] at h
  exact ⟨la, lo, rfl, rfl, h.symm⟩

/-- The derived-signal map agrees with the bundle's canonical signals on
every key that is not one of the seven derived keys. -/
theorem buildAllSignals_nonderived (bundle : ParsedBundle) (k : String)
    (h1 : k ≠ "SafetyNet.JWT") (h2 : k ≠ "DeviceCheck.Attestation")
    (h3 : k ≠ "HasOTS") (h4 : k ≠ "HasPGPKey") (h5 : k ≠ "PGP.PublicKey")
    (h6 : k ≠ "PGP.MetadataSignature") (h7 : k ≠ "FileHash") :
    buildAllSignals bundle k = bundle.metadata.signals k := by
  unfold buildAllSignals
  cases htok : truthyStr bundle.safetyNetToken <;>
  cases hdev : truthyStr bundle.deviceCheckAttestation <;>
  cases hots : bundle.otsProof <;>
  cases hpk : truthyStr bundle.publicKey <;>
  cases hmsig : bundle.metadataSignature <;>
  cases hhash : truthyStr bundle.expectedHash <;>
  simp [setSig, ite_apply, h1, h2, h3, h4, h5, h6, h7]

/-- The derived-signal map keeps every key the bundle's canonical signal
map defines. -/
theorem buildAllSignals_preserves (bundle : ParsedBundle) (k : String)
    (h : (bundle.metadata.signals k).isSome = true) :
    ((buildAllSignals bundle) k).isSome = true := by
  unfold buildAllSignals
  cases htok : truthyStr bundle.safetyNetToken <;>
  cases hdev : truthyStr bundle.deviceCheckAttestation <;>
  cases hots : bundle.otsProof <;>
  cases hpk : truthyStr bundle.publicKey <;>
  cases hmsig : bundle.metadataSignature <;>
  cases hhash : truthyStr bundle.expectedHash <;>
  simp [setSig, ite_apply, apply_ite Option.isSome, h]

/-- C8: every canonical signal of the bundle appears in the built
stamp's signal map; keys outside the seven derived entries are copied
unchanged; and each derived entry is added only when its bundle
artifact is present (otherwise the key is exactly as in the bundle's
map). -/
theorem stamp_signal_copy (env : JSEnv) (bundle : ParsedBundle)
    (v : String) (s : Stamp)
    (h : createStampFromBundle env bundle v = Except.ok s) :
    (∀ k, k ∉ derivedSignalKeys → s.signals k = bundle.metadata.signals k) ∧
    (∀ k, (bundle.metadata.signals k).isSome = true →
      (s.signals k).isSome = true) ∧
    (truthyStr bundle.safetyNetToken = none →
      s.signals "SafetyNet.JWT" = bundle.metadata.signals "SafetyNet.JWT") ∧
    (truthyStr bundle.deviceCheckAttestation = none →
      s.signals "DeviceCheck.Attestation" =
        bundle.metadata.signals "DeviceCheck.Attestation") ∧
    (bundle.otsProof = none →
      s.signals "HasOTS" = bundle.metadata.signals "HasOTS") ∧
    (truthyStr bundle.publicKey = none →
      s.signals "HasPGPKey" = bundle.metadata.signals "HasPGPKey" ∧
      s.signals "PGP.PublicKey" = bundle.metadata.signals "PGP.PublicKey") ∧
    ((∀ b, bundle.metadataSignature = some b → b.length = 0) →
      s.signals "PGP.MetadataSignature" =
        bundle.metadata.signals "PGP.MetadataSignature") ∧
    (truthyStr bundle.expectedHash = none →
      s.signals "FileHash" = bundle.metadata.signals "FileHash") := by
  obtain ⟨la, lo, hla, hlo, hsEq⟩ := create_ok_eq env bundle v s h
  have hsig : s.signals = buildAllSignals bundle := by rw [hsEq]
  rw [hsig]
  refine ⟨?_, ?_, ?_, ?_, ?_, ?_, ?_, ?_⟩
  · intro k hk
    simp only [derivedSignalKeys, List.mem_cons, List.not_mem_nil] at hk
    push_neg at hk
    obtain ⟨k1, k2, k3, k4, k5, k6, k7, _⟩ := hk
    exact buildAllSignals_nonderived bundle k k1 k2 k3 k4 k5 k6 k7
  · intro k hk
    exact buildAllSignals_preserves bundle k hk
  · intro habs
    unfold buildAllSignals
    cases hdev : truthyStr bundle.deviceCheckAttestation <;>
    cases hots : bundle.otsProof <;>
    cases hpk : truthyStr bundle.publicKey <;>
    cases hmsig : bundle.metadataSignature <;>
    cases hhash : truthyStr bundle.expectedHash <;>
    simp_all [setSig, ite_apply]
  · intro habs
    unfold buildAllSignals
    cases htok : truthyStr bundle.safetyNetToken <;>
    cases hots : bundle.otsProof <;>
    cases hpk : truthyStr bundle.publicKey <;>
    cases hmsig : bundle.metadataSignature <;>
    cases hhash : truthyStr bundle.expectedHash <;>
    simp_all [setSig, ite_apply]
  · intro habs
    unfold buildAllSignals
    cases htok : truthyStr bundle.safetyNetToken <;>
    cases hdev : truthyStr bundle.deviceCheckAttestation <;>
    cases hpk : truthyStr bundle.publicKey <;>
    cases hmsig : bundle.metadataSignature <;>
    cases hhash : truthyStr bundle.expectedHash <;>
    simp_all [setSig, ite_apply]
  · intro habs
    unfold buildAllSignals
    cases htok : truthyStr bundle.safetyNetToken <;>
    cases hdev : truthyStr bundle.deviceCheckAttestation <;>
    cases hots : bundle.otsProof <;>
    cases hmsig : bundle.metadataSignature <;>
    cases hhash : truthyStr bundle.expectedHash <;>
    simp_all [setSig, ite_apply]
  · intro habs
    unfold buildAllSignals
    cases hmsig : bundle.metadataSignature with
    | none =>
      cases htok : truthyStr bundle.safetyNetToken <;>
      cases hdev : truthyStr bundle.deviceCheckAttestation <;>
      cases hots : bundle.otsProof <;>
      cases hpk : truthyStr bundle.publicKey <;>
      cases hhash : truthyStr bundle.expectedHash <;>
      simp_all [setSig, ite_apply]
    | some bytes =>
      have hb : bytes.length = 0 := habs bytes hmsig
      cases htok : truthyStr bundle.safetyNetToken <;>
      cases hdev : truthyStr bundle.deviceCheckAttestation <;>
      cases hots : bundle.otsProof <;>
      cases hpk : truthyStr bundle.publicKey <;>
      cases hhash : truthyStr bundle.expectedHash <;>
      simp_all [setSig, ite_apply]
  · intro habs
    unfold buildAllSignals
    cases htok : truthyStr bundle.safetyNetToken <;>
    cases hdev : truthyStr bundle.deviceCheckAttestation <;>
    cases hots : bundle.otsProof <;>
    cases hpk : truthyStr bundle.publicKey <;>
    cases hmsig : bundle.metadataSignature <;>
    simp_all [setSig, ite_apply]

/-- The C8 witness bundle: valid coordinates plus an unrelated
`Hardware` signal. -/
def c8bundle : ParsedBundle :=
  bareBundle (signalsOfList
    [("Location.Latitude", SigVal.num (JSNum.val 40)),
     ("Location.Longitude", SigVal.num (JSNum.val (-73))),
     ("Timestamp", SigVal.num (JSNum.val 1700000000)),
     ("Hardware", SigVal.str "qcom")])

/-- C8 witness: the theorem applied at a concrete bundle shows the
non-derived `Hardware` signal is copied unchanged. -/
theorem stamp_signal_copy_witness :
    (stampOf (createStampFromBundle sampleEnv c8bundle "0.1.0")).signals
      "Hardware" = c8bundle.metadata.signals "Hardware" :=
  (stamp_signal_copy sampleEnv c8bundle "0.1.0"
      (stampOf (createStampFromBundle sampleEnv c8bundle "0.1.0"))
      (by with_unfolding_all rfl)).1 "Hardware" (by decide)

/-! ### Claim C10 -/

/-- One extraction step leaves every key other than the pair's canonical
key untouched. -/
theorem extractStep_other (env : JSEnv) (m : SignalMap)
    (p : String × String) (k : String) (h : canonicalKey p.1 ≠ k) :
    extractStep env m p k = m k := by
  unfold extractStep
  split
  · rfl
  split
  · cases env.parseFloat (jsTrim p.2) <;> simp [setSig, Ne.symm h]
  · simp [setSig, Ne.symm h]

/-- A key reachable from no raw entry is absent from the extracted
signal map. -/
theorem extractSignals_none (env : JSEnv) (raw : List (String × String))
    (k : String) (h : ∀ p ∈ raw, canonicalKey p.1 ≠ k) :
    extractSignals env raw k = none := by
  unfold extractSignals
  suffices hgen : ∀ (l : List (String × String)) (m : SignalMap),
      (∀ p ∈ l, canonicalKey p.1 ≠ k) → m k = none →
      (l.foldl (extractStep env) m) k = none by
    exact hgen raw emptySignals h rfl
  intro l
  induction l with
  | nil => intro m _ hm; exact hm
  | cons p t ih =>
    intro m hl hm
    simp only [List.foldl_cons]
    refine ih (extractStep env m p) (fun q hq => hl q (List.mem_cons_of_mem p hq)) ?_
    rw [extractStep_other env m p k (hl p (List.mem_cons_self p t))]
    exact hm

/-- C10: when no raw metadata key normalizes to
`SafetyNet.BasicIntegrity`, the built stamp has no such signal (the
attestation token is stored under `SafetyNet.JWT` instead), so the
evaluator — which reads `SafetyNet.BasicIntegrity` — never records the
basic-integrity bonus. -/
theorem basic_integrity_bonus_unreachable (env : JSEnv)
    (raw : List (String × String)) (bundle : ParsedBundle) (v : String)
    (s : Stamp) (claim : LocationClaim)
    (hsig : bundle.metadata.signals = extractSignals env raw)
    (hraw : ∀ p ∈ raw, canonicalKey p.1 ≠ "SafetyNet.BasicIntegrity")
    (hok : createStampFromBundle env bundle v = Except.ok s) :
    s.signals "SafetyNet.BasicIntegrity" = none ∧
    (evaluateProofModeStamp env s claim).details "safetyNetBonus" = none := by
  obtain ⟨la, lo, _, _, hsEq⟩ := create_ok_eq env bundle v s hok
  have h1 : s.signals "SafetyNet.BasicIntegrity" = none := by
    rw [hsEq]
    show buildAllSignals bundle "SafetyNet.BasicIntegrity" = none
    rw [buildAllSignals_nonderived bundle _ (by decide) (by decide) (by decide)
      (by decide) (by decide) (by decide) (by decide), hsig]
    exact extractSignals_none env raw _ hraw
  refine ⟨h1, ?_⟩
  unfold evaluateProofModeStamp
  cases hsx : extractCoords s.location with
  | none => simp [zeroVector, setD, emptyDetails]
  | some sc =>
    cases hcx : extractCoords claim.location with
    | none => simp [zeroVector, setD, emptyDetails]
    | some cc => simp [h1, setD, ite_apply, emptyDetails]

/-- The C10 witness raw metadata: canonical keys, none of which
normalizes to `SafetyNet.BasicIntegrity`. -/
def c10raw : List (String × String) :=
  [("latitude", "40"), ("longitude", "73"), ("timestamp", "1700000000")]

/-- The C10 witness bundle: signals extracted from `c10raw` plus an
attestation token artifact. -/
def c10bundle : ParsedBundle :=
  { bareBundle (extractSignals sampleEnv c10raw) with
    safetyNetToken := some "header.payload.sig" }

/-- The claim used by the C10 witness. -/
def c10claim : LocationClaim :=
  { location := some ⟨"Point", [JSNum.val 73, JSNum.val 40]⟩
    radius := JSNum.val 100
    time := ⟨SigVal.num (JSNum.val 1700000000),
      SigVal.num (JSNum.val 1700000600)⟩ }

/-- C10 witness: the theorem applied at a concrete bundle that carries
an attestation token but no `SafetyNet.BasicIntegrity` raw key. -/
theorem basic_integrity_bonus_unreachable_witness :
    (evaluateProofModeStamp sampleEnv
      (stampOf (createStampFromBundle sampleEnv c10bundle "0.1.0"))
      c10claim).details "safetyNetBonus" = none :=
  (basic_integrity_bonus_unreachable sampleEnv c10raw c10bundle "0.1.0"
    (stampOf (createStampFromBundle sampleEnv c10bundle "0.1.0")) c10claim
    rfl (by with_unfolding_all decide) (by with_unfolding_all rfl)).2

/-! ### Claim C4 -/

/-- C4: a stamp with the expected version and plugin tags, a present
location, truthy footprint start and end, at least one signature each
with a nonempty string value and a signer with nonempty value,
in-range-or-absent coordinate signals and an in-tolerance (≤ 3600 s)
location-time drift verifies with all three flags true; provider or
accuracy plausibility and attestation-token contents are unconstrained,
so they never affect any flag. -/
theorem verify_valid_on_wellformed (env : JSEnv) (stamp : Stamp)
    (h1 : stamp.lpVersion = "0.2")
    (h2 : stamp.plugin = "proofmode")
    (h3 : stamp.location.isSome = true)
    (h4 : sigTruthyB stamp.temporalFootprint.start = true)
    (h5 : sigTruthyB stamp.temporalFootprint.stop = true)
    (h6 : stamp.signatures ≠ [])
    (h7 : ∀ sig ∈ stamp.signatures,
      (∃ sv, sig.value = SigVal.str sv ∧ sv ≠ "") ∧
      (∃ sg, sig.signer = some sg ∧ sg.value ≠ ""))
    (h8 : coordSignalOk (stamp.signals "Location.Latitude") (-90) 90 = true)
    (h9 : coordSignalOk (stamp.signals "Location.Longitude") (-180) 180 = true)
    (h10 : driftOkB env stamp = true) :
    (verifyProofModeStamp env stamp).valid = true ∧
    (verifyProofModeStamp env stamp).structureValid = true ∧
    (verifyProofModeStamp env stamp).signaturesValid = true ∧
    (verifyProofModeStamp env stamp).signalsConsistent = true := by
  have hstruct : structureValidB stamp = true := by
    simp [structureValidB, h1, h2, h3, h4, h5]
  have hsigs : signaturesValidB stamp = true := by
    unfold signaturesValidB
    rw [Bool.and_eq_true]
    constructor
    · cases hcase : stamp.signatures with
      | nil => exact absurd hcase h6
      | cons a t => simp [List.isEmpty]
    · rw [List.all_eq_true]
      intro sig hsig
      obtain ⟨⟨sv, hv, hv0⟩, ⟨sg, hg, hg0⟩⟩ := h7 sig hsig
      simp [signatureEntryOk, hv, hg, hv0, hg0]
  have hcons : signalsConsistentB env stamp = true := by
    simp [signalsConsistentB, h8, h9, h10]
  unfold verifyProofModeStamp
  simp [hstruct, hsigs, hcons]

/-- The C4 witness stamp: well-formed, signed, with in-range
coordinates, a GPS provider with a suspicious accuracy (advisory only)
and a small location-time drift. -/
def c4stamp : Stamp :=
  { lpVersion := "0.2"
    locationType := "geojson-point"
    location := some ⟨"Point", [JSNum.val (-73), JSNum.val 40]⟩
    srs := "http://www.opengis.net/def/crs/OGC/1.3/CRS84"
    temporalFootprint := ⟨SigVal.num (JSNum.val 1700000000),
      SigVal.num (JSNum.val 1700000001)⟩
    plugin := "proofmode"
    pluginVersion := "0.1.0"
    signals := signalsOfList
      [("Location.Latitude", SigVal.num (JSNum.val 40)),
       ("Location.Longitude", SigVal.num (JSNum.val (-73))),
       ("Location.Provider", SigVal.str "gps"),
       ("Location.Accuracy", SigVal.num (JSNum.val 500)),
       ("Location.Time", SigVal.num (JSNum.val 1700000000000)),
       ("SafetyNet.JWT", SigVal.str "not-a-decodable-token")]
    signatures := [⟨"pgp", SigVal.str "sigdata", some ⟨"keyid"⟩⟩] }

/-- C4 witness: the theorem applied at a concrete stamp (whose
suspicious GPS accuracy and undecodable attestation token are advisory
only) yields `valid = true`. -/
theorem verify_valid_on_wellformed_witness :
    (verifyProofModeStamp sampleEnv c4stamp).valid = true :=
  (verify_valid_on_wellformed sampleEnv c4stamp rfl rfl rfl
    (by with_unfolding_all rfl) (by with_unfolding_all rfl)
    (by simp [c4stamp])
    (by
      intro sig hsig
      simp only [c4stamp, List.mem_singleton] at hsig
      subst hsig
      exact ⟨⟨"sigdata", rfl, by simp⟩, ⟨{ value := "keyid" }, rfl, by simp⟩⟩)
    (by with_unfolding_all rfl) (by with_unfolding_all rfl)
    (by with_unfolding_all rfl)).1

/-! ### Claim C6 -/

/-- Whether an entry name classifies as metadata-csv. -/
def isCsvName (n : String) : Bool := n.toLower.endsWith ".proof.csv"

/-- Whether an entry name classifies as metadata-json. -/
def isJsonName (n : String) : Bool := n.toLower.endsWith ".proof.json"

/-- A satisfied member makes `List.any` true. -/
theorem any_of_mem {α : Type} {p : α → Bool} {l : List α} {x : α}
    (hx : x ∈ l) (hp : p x = true) : l.any p = true := by
  induction l with
  | nil => cases hx
  | cons a t ih =>
    rcases List.mem_cons.mp hx with h | h
    · rw [h] at hp
      simp [List.any_cons, hp]
    · simp [List.any_cons, ih h]

/-- A true `List.any` exhibits a satisfied member. -/
theorem mem_of_any {α : Type} {p : α → Bool} {l : List α}
    (h : l.any p = true) : ∃ x, x ∈ l ∧ p x = true := by
  induction l with
  | nil => simp at h
  | cons a t ih =>
    rcases ha : p a with _ | _
    · simp only [List.any_cons, ha, Bool.false_or] at h
      obtain ⟨x, hx, hp⟩ := ih h
      exact ⟨x, List.mem_cons_of_mem a hx, hp⟩
    · exact ⟨a, List.mem_cons_self a t, ha⟩

/-- The csv slot after one classification step. -/
theorem classifyEntry_csvData (env : JSEnv) (s : BundleSlots)
    (e : String × List Nat) :
    (classifyEntry env s e).csvData =
      if isCsvName e.1 then some e.2 else s.csvData := by
  cases hms : s.metadataSignature <;>
  · unfold classifyEntry isCsvName
    cases hc : e.1.toLower.endsWith ".proof.csv" <;>
      simp [hms, hc, apply_ite BundleSlots.csvData]

/-- The json slot after one classification step. -/
theorem classifyEntry_jsonData (env : JSEnv) (s : BundleSlots)
    (e : String × List Nat) :
    (classifyEntry env s e).jsonData =
      if !isCsvName e.1 && isJsonName e.1 then some e.2 else s.jsonData := by
  cases hms : s.metadataSignature <;>
  · unfold classifyEntry isCsvName isJsonName
    cases hc : e.1.toLower.endsWith ".proof.csv" <;>
    cases hj : e.1.toLower.endsWith ".proof.json" <;>
      simp [hms, hc, hj, apply_ite BundleSlots.jsonData]

/-- The csv slot of the finished classification loop is filled exactly
when it started filled or some entry name classifies as metadata-csv. -/
theorem foldl_csvData_isSome (env : JSEnv) :
    ∀ (entries : List (String × List Nat)) (s : BundleSlots),
      ((entries.foldl (classifyEntry env) s).csvData).isSome =
        (s.csvData.isSome || entries.any fun e => isCsvName e.1) := by
  intro entries
  induction entries with
  | nil => intro s; simp
  | cons e t ih =>
    intro s
    simp only [List.foldl_cons, List.any_cons]
    rw [ih, classifyEntry_csvData]
    cases hc : isCsvName e.1 <;> simp

/-- The json slot of the finished classification loop is filled exactly
when it started filled or some entry name classifies as metadata-json
without classifying as metadata-csv. -/
theorem foldl_jsonData_isSome (env : JSEnv) :
    ∀ (entries : List (String × List Nat)) (s : BundleSlots),
      ((entries.foldl (classifyEntry env) s).jsonData).isSome =
        (s.jsonData.isSome ||
          entries.any fun e => !isCsvName e.1 && isJsonName e.1) := by
  intro entries
  induction entries with
  | nil => intro s; simp
  | cons e t ih =>
    intro s
    simp only [List.foldl_cons, List.any_cons]
    rw [ih, classifyEntry_jsonData]
    cases hc : (!isCsvName e.1 && isJsonName e.1) <;> simp

/-- The CSV decoder always tags its output as csv. -/
theorem parseCSV_format (env : JSEnv) (t : String) :
    (parseCSV env t).format = MetaFormat.csv := rfl

/-- The JSON decoder tags a successful output as json and otherwise
fails with the JSON-decode error. -/
theorem parseJSON_cases (env : JSEnv) (t : String) :
    (∃ m, parseJSON env t = Except.ok m ∧ m.format = MetaFormat.json) ∨
    parseJSON env t = Except.error ParseError.jsonDecode := by
  unfold parseJSON
  cases env.jsonParse t with
  | none => exact Or.inr rfl
  | some parsed => exact Or.inl ⟨_, rfl, rfl⟩

set_option maxHeartbeats 1000000 in
/-- C6: `parseBundle` decodes csv metadata whenever a `.proof.csv` entry
exists anywhere in the mapping, falls back to a `.proof.json` entry
(decoding it as json or propagating a JSON-decode error) only when no
`.proof.csv` entry exists, and throws the missing-metadata error exactly
when the mapping holds neither entry kind. -/
theorem metadata_source_selection (env : JSEnv)
    (entries : List (String × List Nat)) :
    ((entries.any fun e => isCsvName e.1) = true →
      Except.map (fun b => b.metadata.format) (parseBundle env entries) =
        Except.ok MetaFormat.csv) ∧
    ((entries.any fun e => isCsvName e.1) = false →
     (entries.any fun e => isJsonName e.1) = true →
      Except.map (fun b => b.metadata.format) (parseBundle env entries) =
        Except.ok MetaFormat.json ∨
      parseBundle env entries = Except.error ParseError.jsonDecode) ∧
    (parseBundle env entries = Except.error ParseError.missingMetadata ↔
      ((entries.any fun e => isCsvName e.1) = false ∧
       (entries.any fun e => isJsonName e.1) = false)) := by
  have hcsv := foldl_csvData_isSome env entries initSlots
  have hjson := foldl_jsonData_isSome env entries initSlots
  rw [show initSlots.csvData = none from rfl] at hcsv
  rw [show initSlots.jsonData = none from rfl] at hjson
  simp only [Option.isSome_none, Bool.false_or] at hcsv hjson
  refine ⟨?_, ?_, ?_⟩
  · intro hany
    rw [hany] at hcsv
    obtain ⟨bytes, hbytes⟩ :=
      Option.isSome_iff_exists.mp hcsv
    unfold parseBundle
    simp only []
    rw [hbytes]
    simp only [Except.map, parseCSV_format]
  · intro hnone hany
    have hj : (entries.any fun e => !isCsvName e.1 && isJsonName e.1) = true := by
      obtain ⟨e, he, hej⟩ := mem_of_any hany
      have hec : isCsvName e.1 = false := by
        rcases hc : isCsvName e.1 with _ | _
        · rfl
        · rw [show (entries.any fun e => isCsvName e.1) = true from
            any_of_mem he hc] at hnone
          exact absurd hnone (by simp)
      exact any_of_mem he (by rw [hec, hej]; rfl)
    rw [hj] at hjson
    have hc0 : ((entries.foldl (classifyEntry env) initSlots).csvData) = none := by
      rw [hnone] at hcsv
      exact Option.not_isSome_iff_eq_none.mp (by rw [hcsv]; exact Bool.false_ne_true)
    obtain ⟨jbytes, hjb⟩ := Option.isSome_iff_exists.mp hjson
    unfold parseBundle
    simp only []
    rw [hc0, hjb]
    simp only []
    rcases parseJSON_cases env (env.decode jbytes) with ⟨m, hm, hfmt⟩ | herr
    · rw [hm]
      exact Or.inl (by simp [Except.map, hfmt])
    · rw [herr]
      exact Or.inr rfl
  · constructor
    · intro herr
      unfold parseBundle at herr
      simp only [] at herr
      rcases hc0 : ((entries.foldl (classifyEntry env) initSlots).csvData) with _ | cbytes
      rotate_left
      · rw [hc0] at herr
        exact absurd herr (by simp)
      rw [hc0] at herr
      rcases hj0 : ((entries.foldl (classifyEntry env) initSlots).jsonData) with _ | jbytes
      rotate_left
      · rw [hj0] at herr
        simp only [] at herr
        rcases parseJSON_cases env (env.decode jbytes) with ⟨m, hm, _⟩ | hje
        · rw [hm] at herr
          exact absurd herr (by simp)
        · rw [hje] at herr
          exact absurd herr (by simp)
      have hcany : (entries.any fun e => isCsvName e.1) = false := by
        rw [hc0] at hcsv
        exact hcsv.symm
      refine ⟨hcany, ?_⟩
      rw [hj0] at hjson
      rcases hx : entries.any fun e => isJsonName e.1 with _ | _
      · rfl
      obtain ⟨e, he, hej⟩ := mem_of_any hx
      have hec : isCsvName e.1 = false := by
        rcases hy : isCsvName e.1 with _ | _
        · rfl
        · rw [show (entries.any fun e => isCsvName e.1) = true from
            any_of_mem he hy] at hcany
          exact absurd hcany (by simp)
      have : (entries.any fun e => !isCsvName e.1 && isJsonName e.1) = true :=
        any_of_mem he (by rw [hec, hej]; rfl)
      rw [this] at hjson
      simp at hjson
    · intro ⟨hc, hj⟩
      have hc0 : ((entries.foldl (classifyEntry env) initSlots).csvData) = none := by
        rw [hc] at hcsv
        exact Option.not_isSome_iff_eq_none.mp (by rw [hcsv]; exact Bool.false_ne_true)
      have hj0 : ((entries.foldl (classifyEntry env) initSlots).jsonData) = none := by
        have hja : (entries.any fun e => !isCsvName e.1 && isJsonName e.1) = false := by
          rcases hx : entries.any fun e => !isCsvName e.1 && isJsonName e.1 with _ | _
          · rfl
          · obtain ⟨e, he, hb⟩ := mem_of_any hx
            have hje : isJsonName e.1 = true := by
              rcases hy : isJsonName e.1 with _ | _
              · rw [hy] at hb
                simp at hb
              · rfl
            rw [show (entries.any fun e => isJsonName e.1) = true from
              any_of_mem he hje] at hj
            exact absurd hj (by simp)
        rw [hja] at hjson
        exact Option.not_isSome_iff_eq_none.mp (by rw [hjson]; exact Bool.false_ne_true)
      unfold parseBundle
      simp only []
      rw [hc0, hj0]

/-- The C6 witness archive: one metadata-csv entry. -/
def c6entries : List (String × List Nat) :=
  [("abc.proof.csv", strBytes "Location.Latitude,40")]

/-- C6 witness: the theorem applied at a concrete archive selects the
csv metadata source. -/
theorem metadata_source_selection_witness :
    Except.map (fun b => b.metadata.format)
      (parseBundle sampleEnv c6entries) = Except.ok MetaFormat.csv :=
  (metadata_source_selection sampleEnv c6entries).1 (by with_unfolding_all rfl)

/-! ### Claim C7 -/

/-- A successful association-list lookup exhibits a member. -/
theorem lookup_mem :
    ∀ {l : List (String × String)} {a b : String},
      l.lookup a = some b → (a, b) ∈ l := by
  intro l
  induction l with
  | nil => intro a b h; simp [List.lookup] at h
  | cons p t ih =>
    intro a b h
    cases p with
    | mk pk pv =>
      rcases hbeq : a == pk with _ | _
      · simp only [List.lookup, hbeq] at h
        exact List.mem_cons_of_mem _ (ih h)
      · simp only [List.lookup, hbeq] at h
        have ha : a = pk := by
          have := hbeq
          simp only [beq_iff_eq] at this
          exact this
        have hv : pv = b := by
          injection h
        rw [ha, ← hv]
        exact List.mem_cons_self _ _

/-- Every canonical name in the range of the alias table is a fixed
point of alias resolution. -/
theorem alias_targets_fixed :
    (ALIASES.all fun p => canonicalKey p.2 == p.2) = true := by
  with_unfolding_all decide

/-- Alias resolution is idempotent on every key. -/
theorem canonicalKey_idem (k : String) :
    canonicalKey (canonicalKey k) = canonicalKey k := by
  rcases h : ALIASES.lookup k.toLower with _ | t
  · have hk : canonicalKey k = k := by unfold canonicalKey; rw [h]; rfl
    rw [hk]
    exact hk
  · have hk : canonicalKey k = t := by unfold canonicalKey; rw [h]; rfl
    rw [hk]
    have hmem : (k.toLower, t) ∈ ALIASES := lookup_mem h
    have := List.all_eq_true.mp alias_targets_fixed _ hmem
    simp only [beq_iff_eq] at this
    exact this

/-- C7: the signal normalizer is idempotent at the key level — alias
resolution is idempotent on every key (an already-canonical key is its
own alias-table target or passes through unchanged), and every key
present in an extracted signal map is a fixed point of alias
resolution, so re-normalizing normalizer output changes no key. -/
theorem normalizer_idempotent :
    (∀ k, canonicalKey (canonicalKey k) = canonicalKey k) ∧
    (∀ (env : JSEnv) (raw : List (String × String)) (k : String)
      (v : SigVal), (extractSignals env raw) k = some v →
      canonicalKey k = k) := by
  refine ⟨canonicalKey_idem, ?_⟩
  intro env raw k v h
  have hex : ¬ (∀ p ∈ raw, canonicalKey p.1 ≠ k) := by
    intro hall
    rw [extractSignals_none env raw k hall] at h
    cases h
  push_neg at hex
  obtain ⟨p, hp, hpk⟩ := hex
  rw [← hpk]
  exact canonicalKey_idem p.1

/-- C7 witness: the theorem applied at a concrete raw map shows the
extracted canonical key `Location.Latitude` is a fixed point. -/
theorem normalizer_idempotent_witness :
    canonicalKey "Location.Latitude" = "Location.Latitude" :=
  normalizer_idempotent.2 sampleEnv [("latitude", "40")]
    "Location.Latitude" (SigVal.num (JSNum.val 40))
    (by with_unfolding_all rfl)

end ProofMode
